import Mathlib

/-!
Shallow embedding of the ledger / reporting core of the Finance-agent
repository (app/services/gl_service.py, validation_service.py,
fiscal_service.py, financial_statement_service.py, currency_service.py and
app/routers/journal_entries.py), together with proofs settling the claims
about it.

Modelling conventions:
* money amounts (`Numeric(18,2)` columns, `Decimal` quantized to 2 places)
  are integers in cents (`Int`);
* exchange rates and converted amounts (`Decimal` with 6-place rates and
  currency-specific quantization) are rationals (`ℚ`);
* dates (`DateTime` / `Date` columns) are `SDate` triples compared through a
  lexicographic key, matching chronological comparison of valid dates;
* a SQLAlchemy session is a `Ledger` (resp. `CurrencyDB`) record of table
  contents; `query(...).filter(...)` becomes `List.filter`, `.first()`
  becomes `List.find?`, `order_by(col.desc()).first()` becomes a fold that
  keeps the row with the largest key;
* `HTTPException(status_code, detail)` becomes `Except ApiError`; dynamic
  parts of detail strings are abbreviated, the status code and the shape of
  the message are kept.
-/

namespace Finance

/-- Account types, from app/models/gl_models.py `AccountType`. -/
inductive AccountType where
  | ASSET
  | LIABILITY
  | EQUITY
  | REVENUE
  | EXPENSE
deriving DecidableEq, Repr

/-- Journal entry statuses, from app/models/gl_models.py `JournalEntryStatus`. -/
inductive JournalEntryStatus where
  | DRAFT
  | POSTED
  | REVERSED
deriving DecidableEq, Repr

/-- A calendar date (year, month, day). -/
structure SDate where
  y : Nat
  m : Nat
  d : Nat
deriving DecidableEq, Repr

/-- Lexicographic key of a date; comparing keys models comparing dates. -/
def SDate.key (a : SDate) : Nat := (a.y * 100 + a.m) * 100 + a.d

/-- Date comparison `a <= b`. -/
def SDate.le (a b : SDate) : Bool := a.key ≤ b.key

/-- Date comparison `a < b`. -/
def SDate.lt (a b : SDate) : Bool := a.key < b.key

/-- An `accounts` row, from app/models/gl_models.py `Account`.
Fields not used by any claim (description, parent, currency, timestamps)
are omitted. -/
structure Account where
  id : Nat
  code : String
  name : String
  account_type : AccountType
  is_active : Bool
deriving DecidableEq, Repr

/-- A `journal_entry_lines` row (app/models/gl_models.py `JournalEntryLine`):
debit and credit amounts in cents. -/
structure JournalEntryLine where
  account_id : Nat
  debit_amount : Int
  credit_amount : Int
deriving DecidableEq, Repr

/-- A `journal_entries` row together with its owned lines
(app/models/gl_models.py `JournalEntry`; the `lines` relationship is
inlined, so the SQL join on `journal_entry_id` becomes list flattening). -/
structure JournalEntry where
  id : Nat
  entry_number : String
  entry_date : SDate
  status : JournalEntryStatus
  posted_at : Option Nat
  reversed_at : Option Nat
  lines : List JournalEntryLine
deriving DecidableEq, Repr

/-- A `fiscal_periods` row, from app/models/gl_models.py `FiscalPeriod`. -/
structure FiscalPeriod where
  id : Nat
  name : String
  start_date : SDate
  end_date : SDate
  is_closed : Bool
  closed_at : Option Nat
deriving DecidableEq, Repr

/-- An `account_balances` row, from app/models/gl_models.py `AccountBalance`. -/
structure AccountBalance where
  account_id : Nat
  fiscal_period_id : Nat
  opening_balance : Int
  current_balance : Int
  closing_balance : Int
deriving DecidableEq, Repr

/-- The general-ledger database state seen by the services. -/
structure Ledger where
  accounts : List Account
  entries : List JournalEntry
  periods : List FiscalPeriod
  account_balances : List AccountBalance
deriving DecidableEq, Repr

/-- An HTTPException raised by a service or router. -/
inductive ApiError where
  | badRequest (detail : String)
  | notFound (detail : String)
  | serverError (detail : String)
deriving DecidableEq, Repr

/-- The request schema app/schemas/gl_schemas.py `JournalEntryCreate`
(entry date plus lines; description and reference carry no logic). -/
structure JournalEntryCreate where
  entry_date : SDate
  lines : List JournalEntryLine
deriving DecidableEq, Repr

namespace GLService

/-- From app/services/gl_service.py `GLService.validate_journal_entry`:
checks that every referenced account exists (comparing the number of
accounts found against the number of line account ids, duplicates
included), then that total debits equal total credits exactly. -/
def validate_journal_entry (entry : JournalEntryCreate) (db : Ledger) :
    Except ApiError Bool :=
  let account_ids := entry.lines.map (·.account_id)
  let accounts := db.accounts.filter (fun a => account_ids.contains a.id)
  if accounts.length ≠ account_ids.length then
    Except.error (ApiError.badRequest "One or more accounts not found")
  else
    let total_debits : Int := (entry.lines.map (·.debit_amount)).sum
    let total_credits : Int := (entry.lines.map (·.credit_amount)).sum
    if total_debits ≠ total_credits then
      Except.error (ApiError.badRequest "Journal entry not balanced")
    else
      Except.ok true

end GLService

namespace ValidationService

/-- Rule 5 of app/services/validation_service.py
`ValidationService.validate_journal_entry`: each line must carry a debit or
a credit but not both; the loop reports the first offending line. -/
def check_lines : List JournalEntryLine → Bool × Option String
  | [] => (true, none)
  | l :: rest =>
    if l.debit_amount > 0 ∧ l.credit_amount > 0 then
      (false, some "line cannot have both debit and credit amounts")
    else if l.debit_amount = 0 ∧ l.credit_amount = 0 then
      (false, some "line must have either a debit or credit amount")
    else check_lines rest

/-- From app/services/validation_service.py
`ValidationService.validate_journal_entry` (the schema and model call
sites both reduce to the entry lines and entry date): at least two lines;
all referenced accounts found (distinct ids) and active; total debits and
credits within `Decimal(0.01)` = 1 cent of each other; entry date inside
an open fiscal period; debit-XOR-credit per line. Returns
`(is_valid, error_message)`. -/
def validate_journal_entry (db : Ledger) (lines : List JournalEntryLine)
    (entry_date : SDate) : Bool × Option String :=
  if lines.length < 2 then
    (false, some "Journal entry must have at least two lines")
  else
    let account_ids := lines.map (·.account_id)
    let accounts := db.accounts.filter (fun a => account_ids.contains a.id)
    if accounts.length ≠ account_ids.eraseDups.length then
      (false, some "One or more accounts not found")
    else if (accounts.filter (fun a => !a.is_active)).length ≠ 0 then
      (false, some "Cannot use inactive accounts")
    else
      let total_debits : Int := (lines.map (·.debit_amount)).sum
      let total_credits : Int := (lines.map (·.credit_amount)).sum
      if |total_debits - total_credits| > 1 then
        (false, some "Journal entry not balanced")
      else
        match db.periods.find? (fun p =>
            p.start_date.le entry_date && entry_date.le p.end_date) with
        | none => (false, some "No fiscal period found for date")
        | some period =>
          if period.is_closed then
            (false, some "Cannot post to closed fiscal period")
          else check_lines lines

end ValidationService

namespace Routers

/-- From app/routers/journal_entries.py `create_journal_entry`: validates
through `GLService.validate_journal_entry`, then inserts a new DRAFT entry
with the generated entry number (the number and fresh id are parameters,
standing for `GLService.generate_entry_number()` and the database default). -/
def create_journal_entry (journal_entry : JournalEntryCreate) (db : Ledger)
    (entry_number : String) (new_id : Nat) : Except ApiError Ledger :=
  match GLService.validate_journal_entry journal_entry db with
  | Except.error e => Except.error e
  | Except.ok _ =>
    Except.ok { db with entries := db.entries ++
      [{ id := new_id, entry_number := entry_number,
         entry_date := journal_entry.entry_date,
         status := JournalEntryStatus.DRAFT,
         posted_at := none, reversed_at := none,
         lines := journal_entry.lines }] }

/-- Update the first entry in the list having the given id (the SQLAlchemy
`.first()` row is mutated in place). -/
def update_entry (l : List JournalEntry) (i : Nat)
    (f : JournalEntry → JournalEntry) : List JournalEntry :=
  match l with
  | [] => []
  | e :: rest => if e.id = i then f e :: rest else e :: update_entry rest i f

/-- From app/routers/journal_entries.py `post_journal_entry`: 404 when the
entry is missing, 400 unless its status is DRAFT, otherwise sets the status
to POSTED and stamps `posted_at` with the current time (`now`). No other
field is touched and no validation is performed. -/
def post_journal_entry (db : Ledger) (entry_id : Nat) (now : Nat) :
    Except ApiError Ledger :=
  match db.entries.find? (fun e => e.id == entry_id) with
  | none => Except.error (ApiError.notFound "Journal entry not found")
  | some e =>
    if e.status ≠ JournalEntryStatus.DRAFT then
      Except.error (ApiError.badRequest "Journal entry is already posted or reversed")
    else
      let upd := update_entry db.entries entry_id (fun e' =>
        { e' with status := JournalEntryStatus.POSTED, posted_at := some now })
      Except.ok { db with entries := upd }

/-- From app/routers/journal_entries.py `reverse_journal_entry`: 404 when
missing, 400 unless POSTED, otherwise sets the status to REVERSED and
stamps `reversed_at`; the lines are left intact and no counter-entry is
created. -/
def reverse_journal_entry (db : Ledger) (entry_id : Nat) (now : Nat) :
    Except ApiError Ledger :=
  match db.entries.find? (fun e => e.id == entry_id) with
  | none => Except.error (ApiError.notFound "Journal entry not found")
  | some e =>
    if e.status ≠ JournalEntryStatus.POSTED then
      Except.error (ApiError.badRequest "Only posted journal entries can be reversed")
    else
      let upd := update_entry db.entries entry_id (fun e' =>
        { e' with status := JournalEntryStatus.REVERSED, reversed_at := some now })
      Except.ok { db with entries := upd }

end Routers

/-- Python-dict accumulation: `if k not in d: d[k] = 0` followed by
`d[k] += v`. The first occurrence of the key is updated in place; a new
key is inserted at the end (dict insertion order). -/
def bump {V : Type} [Add V] : List (Nat × V) → Nat → V → List (Nat × V)
  | [], k, v => [(k, v)]
  | (k', v') :: rest, k, v =>
    if k' = k then (k', v' + v) :: rest else (k', v') :: bump rest k v

/-- Value stored under key `a` of an association list, defaulting to 0. -/
def lookupOr0 (m : List (Nat × Int)) (a : Nat) : Int :=
  match m.find? (fun kv => kv.1 == a) with
  | none => 0
  | some kv => kv.2

/-- Among the rows of `l`, the one with the largest `key` (the first such
row on ties), i.e. `order_by(col.desc()).first()`. -/
def pickLatest {α : Type} (key : α → Nat) (l : List α) : Option α :=
  l.foldl (fun acc x =>
    match acc with
    | none => some x
    | some y => if key y < key x then some x else acc) none

/-- Among the rows of `l`, the one with the smallest `key` (the first such
row on ties), i.e. `order_by(col).first()`. -/
def pickEarliest {α : Type} (key : α → Nat) (l : List α) : Option α :=
  l.foldl (fun acc x =>
    match acc with
    | none => some x
    | some y => if key x < key y then some x else acc) none

/-- The `JournalEntry` query shared by the balance computations:
`status == POSTED and entry_date <= as_of`. -/
def postedOnOrBefore (db : Ledger) (as_of : SDate) : List JournalEntry :=
  db.entries.filter (fun e =>
    e.status == JournalEntryStatus.POSTED && e.entry_date.le as_of)

/-- The `JournalEntry` query of `_get_period_transactions` and of the cash
flow helpers: `status == POSTED and from_date <= entry_date <= to_date`. -/
def postedInRange (db : Ledger) (from_date to_date : SDate) :
    List JournalEntry :=
  db.entries.filter (fun e =>
    e.status == JournalEntryStatus.POSTED &&
    from_date.le e.entry_date && e.entry_date.le to_date)

namespace FiscalService

/-- From app/services/fiscal_service.py
`FiscalService.calculate_period_ending_balances`: per-account sum of
(debit - credit) over the lines of all POSTED entries dated on or before
the period end (the early `{}` return for no entries coincides with the
empty fold). -/
def calculate_period_ending_balances (db : Ledger) (period : FiscalPeriod) :
    List (Nat × Int) :=
  let entries := postedOnOrBefore db period.end_date
  let lines := entries.flatMap (·.lines)
  lines.foldl (fun m l => bump m l.account_id (l.debit_amount - l.credit_amount)) []

/-- From app/services/fiscal_service.py `FiscalService.get_previous_period`:
the period with the latest end date strictly before the given period's
start date. -/
def get_previous_period (db : Ledger) (period : FiscalPeriod) :
    Option FiscalPeriod :=
  pickLatest (fun p => p.end_date.key)
    (db.periods.filter (fun p => p.end_date.lt period.start_date))

/-- Set the closing balance of the first `AccountBalance` row matching the
(account, period) pair (the mutation of the `.first()` row in
`close_fiscal_period`). -/
def set_closing (l : List AccountBalance) (aid pid : Nat) (v : Int) :
    List AccountBalance :=
  match l with
  | [] => []
  | b :: rest =>
    if b.account_id = aid ∧ b.fiscal_period_id = pid then
      { b with closing_balance := v } :: rest
    else b :: set_closing rest aid pid v

/-- One iteration of the balance-storing loop of `close_fiscal_period`:
if a row for (account, period) already exists its closing balance is
updated, otherwise a new row is appended whose opening balance is the
previous period's closing balance for that account (0 if none). The
lookup runs against the current session state `cur` (pending inserts are
flushed before each query). -/
def store_balance (db : Ledger) (period : FiscalPeriod)
    (cur : List AccountBalance) (kv : Nat × Int) : List AccountBalance :=
  match cur.find? (fun b =>
      b.account_id == kv.1 && b.fiscal_period_id == period.id) with
  | some _ => set_closing cur kv.1 period.id kv.2
  | none =>
    let opening : Int :=
      match get_previous_period db period with
      | none => 0
      | some prev =>
        match cur.find? (fun b =>
            b.account_id == kv.1 && b.fiscal_period_id == prev.id) with
        | none => 0
        | some pb => pb.closing_balance
    cur ++ [{ account_id := kv.1, fiscal_period_id := period.id,
              opening_balance := opening,
              current_balance := kv.2 - opening,
              closing_balance := kv.2 }]

/-- The opening balance looked up by the insert branch of `store_balance`,
with the session state at lookup time passed as `base`: the previous
period closing balance for the account, defaulting to 0. -/
def opening_from (db : Ledger) (period : FiscalPeriod)
    (base : List AccountBalance) (aid : Nat) : Int :=
  match get_previous_period db period with
  | none => 0
  | some prev =>
    match base.find? (fun b =>
        b.account_id == aid && b.fiscal_period_id == prev.id) with
    | none => 0
    | some pb => pb.closing_balance

/-- The `AccountBalance` row appended by the insert branch of
`store_balance` for one (account, ending balance) pair. -/
def snapshot_row (db : Ledger) (period : FiscalPeriod)
    (base : List AccountBalance) (kv : Nat × Int) : AccountBalance :=
  { account_id := kv.1, fiscal_period_id := period.id,
    opening_balance := opening_from db period base kv.1,
    current_balance := kv.2 - opening_from db period base kv.1,
    closing_balance := kv.2 }

/-- Mark the first period with the given id closed (`closed_at := now`). -/
def mark_closed (l : List FiscalPeriod) (pid : Nat) (now : Nat) :
    List FiscalPeriod :=
  match l with
  | [] => []
  | p :: rest =>
    if p.id = pid then
      { p with is_closed := true, closed_at := some now } :: rest
    else p :: mark_closed rest pid now

/-- From app/services/fiscal_service.py `FiscalService.close_fiscal_period`:
404 when the period is missing; 400 when it is already closed; 400 when
any DRAFT entry is dated within [start, end]; otherwise stores an
`AccountBalance` row per account appearing in the period ending balances
and marks the period closed. -/
def close_fiscal_period (db : Ledger) (period_id : Nat) (now : Nat) :
    Except ApiError Ledger :=
  match db.periods.find? (fun p => p.id == period_id) with
  | none => Except.error (ApiError.notFound "Fiscal period not found")
  | some period =>
    if period.is_closed then
      Except.error (ApiError.badRequest "Fiscal period is already closed")
    else
      let unposted := (db.entries.filter (fun e =>
        period.start_date.le e.entry_date && e.entry_date.le period.end_date &&
        e.status == JournalEntryStatus.DRAFT)).length
      if unposted > 0 then
        Except.error (ApiError.badRequest "Cannot close period with unposted journal entries")
      else
        let balances := calculate_period_ending_balances db period
        let stored := balances.foldl (store_balance db period) db.account_balances
        Except.ok { db with account_balances := stored,
                            periods := mark_closed db.periods period_id now }

/-- From app/services/fiscal_service.py `FiscalService.get_fiscal_year_periods`:
periods whose [start, end] lies within the calendar year. (The source also
sorts by start date; the order is irrelevant to every use below except the
tie-break of `max`, noted there.) -/
def get_fiscal_year_periods (db : Ledger) (year : Nat) : List FiscalPeriod :=
  db.periods.filter (fun p =>
    (SDate.mk year 1 1).le p.start_date && p.end_date.le (SDate.mk year 12 31))

/-- From app/services/fiscal_service.py
`FiscalService.validate_fiscal_year_closed`: 404 when the year has no
periods, otherwise whether all of them are closed. -/
def validate_fiscal_year_closed (db : Ledger) (year : Nat) :
    Except ApiError Bool :=
  let periods := get_fiscal_year_periods db year
  if periods.isEmpty then
    Except.error (ApiError.notFound "No fiscal periods found for year")
  else
    Except.ok (periods.all (fun p => p.is_closed))

/-- Result record of `close_fiscal_year` (the returned dictionary plus the
new ledger state and the closing entry it inserted). -/
structure YearCloseResult where
  ledger : Ledger
  total_revenue : Int
  total_expense : Int
  net_income : Int
  closing_entry : JournalEntry
deriving DecidableEq, Repr

/-- From app/services/fiscal_service.py `FiscalService.close_fiscal_year`:
fails unless every period of the year is closed; finds the Retained
Earnings account (first account whose code starts with "3100" and whose
type is EQUITY); sums the raw (debit - credit) year-end balances of
REVENUE accounts into `total_revenue` and of EXPENSE accounts into
`total_expense`; net income := total_revenue - total_expense; builds one
POSTED closing entry with a line per nonzero REVENUE balance
(debit := balance), per nonzero EXPENSE balance (credit := balance), and a
Retained Earnings line (credit net income if positive, else debit its
absolute value); then, if a period starting on or after Jan 1 of the next
year exists, inserts next-year opening `AccountBalance` rows: the raw
balance for ASSET/LIABILITY/EQUITY accounts and zero for REVENUE/EXPENSE
accounts. `now` stands for `datetime.utcnow()` and `new_entry_id` for the
database-generated id of the closing entry. -/
def close_fiscal_year (db : Ledger) (year : Nat) (now : Nat)
    (new_entry_id : Nat) : Except ApiError YearCloseResult :=
  match validate_fiscal_year_closed db year with
  | Except.error e => Except.error e
  | Except.ok all_closed =>
  if !all_closed then
    Except.error (ApiError.badRequest "Cannot close fiscal year - not all periods are closed")
  else
  let periods := get_fiscal_year_periods db year
  match pickLatest (fun p => p.end_date.key) periods with
  | none => Except.error (ApiError.badRequest "No periods in year")
  | some last_period =>
  match db.accounts.find? (fun a =>
      "3100".data.isPrefixOf a.code.data && a.account_type == AccountType.EQUITY) with
  | none => Except.error (ApiError.badRequest "Retained Earnings account not found")
  | some retained_earnings_account =>
  let account_balances := calculate_period_ending_balances db last_period
  let total_revenue : Int := (account_balances.map (fun kv =>
    match db.accounts.find? (fun a => a.id == kv.1) with
    | some a => if a.account_type == AccountType.REVENUE then kv.2 else 0
    | none => 0)).sum
  let total_expense : Int := (account_balances.map (fun kv =>
    match db.accounts.find? (fun a => a.id == kv.1) with
    | some a => if a.account_type == AccountType.EXPENSE then kv.2 else 0
    | none => 0)).sum
  let net_income := total_revenue - total_expense
  let close_lines := account_balances.flatMap (fun kv =>
    match db.accounts.find? (fun a => a.id == kv.1) with
    | none => []
    | some a =>
      if a.account_type == AccountType.REVENUE ∧ kv.2 ≠ 0 then
        [{ account_id := kv.1, debit_amount := kv.2, credit_amount := 0 }]
      else if a.account_type == AccountType.EXPENSE ∧ kv.2 ≠ 0 then
        [{ account_id := kv.1, debit_amount := 0, credit_amount := kv.2 }]
      else [])
  let re_line : JournalEntryLine :=
    if net_income > 0 then
      { account_id := retained_earnings_account.id,
        debit_amount := 0, credit_amount := net_income }
    else
      { account_id := retained_earnings_account.id,
        debit_amount := |net_income|, credit_amount := 0 }
  let closing_entry : JournalEntry :=
    { id := new_entry_id,
      entry_number := "YE-CLOSE-" ++ toString year,
      entry_date := last_period.end_date,
      status := JournalEntryStatus.POSTED,
      posted_at := some now, reversed_at := none,
      lines := close_lines ++ [re_line] }
  let next_period := pickEarliest (fun p => p.start_date.key)
    (db.periods.filter (fun p => (SDate.mk (year + 1) 1 1).le p.start_date))
  let new_rows : List AccountBalance :=
    match next_period with
    | none => []
    | some np => account_balances.flatMap (fun kv =>
        match db.accounts.find? (fun a => a.id == kv.1) with
        | none => []
        | some a =>
          if a.account_type == AccountType.ASSET ∨
             a.account_type == AccountType.LIABILITY ∨
             a.account_type == AccountType.EQUITY then
            [{ account_id := kv.1, fiscal_period_id := np.id,
               opening_balance := kv.2, current_balance := 0,
               closing_balance := kv.2 }]
          else if a.account_type == AccountType.REVENUE ∨
                  a.account_type == AccountType.EXPENSE then
            [{ account_id := kv.1, fiscal_period_id := np.id,
               opening_balance := 0, current_balance := 0,
               closing_balance := 0 }]
          else [])
  Except.ok
    { ledger := { db with entries := db.entries ++ [closing_entry],
                          account_balances := db.account_balances ++ new_rows },
      total_revenue := total_revenue,
      total_expense := total_expense,
      net_income := net_income,
      closing_entry := closing_entry }

end FiscalService

namespace GLService

/-- One row of the trial balance response
(app/schemas/gl_schemas.py `TrialBalanceEntry`). -/
structure TrialBalanceEntry where
  account_id : Nat
  account_code : String
  account_name : String
  account_type : AccountType
  debit_total : Int
  credit_total : Int
  balance : Int
deriving DecidableEq, Repr

/-- The trial balance response
(app/schemas/gl_schemas.py `TrialBalanceResponse`). -/
structure TrialBalanceResponse where
  as_of_date : SDate
  entries : List TrialBalanceEntry
  total_debits : Int
  total_credits : Int
deriving DecidableEq, Repr

/-- Resolve the grouped per-account (debit, credit) totals into trial
balance rows: the account is looked up by id (in the source an absent
account raises while the totals dict is built; here the whole computation
fails instead, observably the same), and the balance is debit-normal for
ASSET/EXPENSE accounts and credit-normal otherwise. -/
def trial_rows (db : Ledger) (totals : List (Nat × (Int × Int))) :
    Except ApiError (List TrialBalanceEntry) :=
  totals.mapM (fun kv =>
    match db.accounts.find? (fun a => a.id == kv.1) with
    | none => Except.error (ApiError.serverError "account missing for line")
    | some a =>
      let balance :=
        if a.account_type == AccountType.ASSET ∨
           a.account_type == AccountType.EXPENSE then
          kv.2.1 - kv.2.2
        else kv.2.2 - kv.2.1
      Except.ok { account_id := kv.1, account_code := a.code,
                  account_name := a.name, account_type := a.account_type,
                  debit_total := kv.2.1, credit_total := kv.2.2,
                  balance := balance })

/-- From app/services/gl_service.py `GLService.calculate_trial_balance`:
over the lines of POSTED entries dated on or before `as_of`, group by
account into (debit total, credit total); the grand totals are the sums of
the per-account totals. An empty entry set short-circuits to the empty
response. -/
def calculate_trial_balance (db : Ledger) (as_of : SDate) :
    Except ApiError TrialBalanceResponse :=
  let entries := postedOnOrBefore db as_of
  if entries.isEmpty then
    Except.ok { as_of_date := as_of, entries := [],
                total_debits := 0, total_credits := 0 }
  else
    let lines := entries.flatMap (·.lines)
    let account_totals := lines.foldl (fun m l =>
      bump m l.account_id (l.debit_amount, l.credit_amount)) []
    match trial_rows db account_totals with
    | Except.error e => Except.error e
    | Except.ok rows =>
      Except.ok { as_of_date := as_of, entries := rows,
                  total_debits := (account_totals.map (fun kv => kv.2.1)).sum,
                  total_credits := (account_totals.map (fun kv => kv.2.2)).sum }

end GLService

namespace FinancialStatementService

/-- From app/services/financial_statement_service.py
`FinancialStatementService._get_account_balances`: per-account sum of
(debit - credit) over the lines of POSTED entries dated on or before
`as_of` (line-for-line the computation of
`FiscalService.calculate_period_ending_balances`). -/
def get_account_balances (db : Ledger) (as_of : SDate) : List (Nat × Int) :=
  let entries := postedOnOrBefore db as_of
  let lines := entries.flatMap (·.lines)
  lines.foldl (fun m l => bump m l.account_id (l.debit_amount - l.credit_amount)) []

/-- From app/services/financial_statement_service.py
`FinancialStatementService._get_period_transactions`: per-account sum of
(debit - credit) over the lines of POSTED entries dated within
[from_date, to_date]. -/
def get_period_transactions (db : Ledger) (from_date to_date : SDate) :
    List (Nat × Int) :=
  let entries := postedInRange db from_date to_date
  let lines := entries.flatMap (·.lines)
  lines.foldl (fun m l => bump m l.account_id (l.debit_amount - l.credit_amount)) []

/-- The `total` of `_organize_balance_sheet_section`: each balance whose
account id belongs to an account of the requested type contributes the raw
balance for ASSET and the sign-flipped balance for LIABILITY/EQUITY (the
keyword-based split into sub-sections redistributes but never changes the
section total). -/
def balance_sheet_section_total (db : Ledger) (balances : List (Nat × Int))
    (ty : AccountType) : Int :=
  (balances.map (fun kv =>
    if db.accounts.any (fun a => a.id == kv.1 && a.account_type == ty) then
      (if ty == AccountType.ASSET then kv.2 else -kv.2)
    else 0)).sum

/-- The `total` of `_organize_income_statement_section`: transactions of
REVENUE accounts contribute sign-flipped, those of EXPENSE accounts
contribute raw. -/
def income_statement_section_total (db : Ledger)
    (transactions : List (Nat × Int)) (ty : AccountType) : Int :=
  (transactions.map (fun kv =>
    if db.accounts.any (fun a => a.id == kv.1 && a.account_type == ty) then
      (if ty == AccountType.REVENUE then -kv.2 else kv.2)
    else 0)).sum

/-- The totals of the income statement dictionary returned by
`FinancialStatementService.get_income_statement`. -/
structure IncomeStatementResult where
  from_date : SDate
  to_date : SDate
  revenue_total : Int
  expenses_total : Int
  net_income : Int
deriving DecidableEq, Repr

/-- From app/services/financial_statement_service.py
`FinancialStatementService.get_income_statement` (totals only; the
`include_details` flag and the comparative recursion do not affect them):
swaps the dates when from_date > to_date, takes the period transactions,
and sets net income := revenue total - expense total. -/
def get_income_statement (db : Ledger) (from_date to_date : SDate) :
    IncomeStatementResult :=
  let f := if to_date.lt from_date then to_date else from_date
  let t := if to_date.lt from_date then from_date else to_date
  let transactions := get_period_transactions db f t
  let revenue := income_statement_section_total db transactions AccountType.REVENUE
  let expenses := income_statement_section_total db transactions AccountType.EXPENSE
  { from_date := f, to_date := t, revenue_total := revenue,
    expenses_total := expenses, net_income := revenue - expenses }

/-- The totals of the balance sheet dictionary returned by
`FinancialStatementService.get_balance_sheet`. -/
structure BalanceSheetResult where
  as_of_date : SDate
  total_assets : Int
  total_liabilities : Int
  total_equity : Int
  total_liabilities_equity : Int
deriving DecidableEq, Repr

/-- Jan 1 of the year of the given date (`date(as_of_date.year, 1, 1)`). -/
def startOfYear (d : SDate) : SDate := { y := d.y, m := 1, d := 1 }

/-- From app/services/financial_statement_service.py
`FinancialStatementService.get_balance_sheet` (totals only): section totals
over the balances as of the date, plus the year-to-date net income
(income statement from Jan 1 of the year of `as_of` to `as_of`) appended
into equity; `total_liabilities_equity` = liabilities + equity. -/
def get_balance_sheet (db : Ledger) (as_of : SDate) : BalanceSheetResult :=
  let current_balances := get_account_balances db as_of
  let assets := balance_sheet_section_total db current_balances AccountType.ASSET
  let liabilities := balance_sheet_section_total db current_balances AccountType.LIABILITY
  let equity0 := balance_sheet_section_total db current_balances AccountType.EQUITY
  let net_income := (get_income_statement db (startOfYear as_of) as_of).net_income
  let equity := equity0 + net_income
  { as_of_date := as_of, total_assets := assets,
    total_liabilities := liabilities, total_equity := equity,
    total_liabilities_equity := liabilities + equity }

/-- Whether `pat` occurs as a contiguous sublist of `hay`. -/
def listContains : List Char → List Char → Bool
  | [], pat => pat.isEmpty
  | c :: rest, pat => pat.isPrefixOf (c :: rest) || listContains rest pat

/-- Case-insensitive substring test, modelling `Account.name.ilike(pat)`
with a `%pat%` pattern (the keyword patterns are all lowercase). -/
def ilikeContains (name pat : String) : Bool :=
  listContains (name.data.map Char.toLower) pat.data

/-- Whether the account name matches any of the given lowercase keywords. -/
def nameMatchesAny (name : String) (pats : List String) : Bool :=
  pats.any (fun p => ilikeContains name p)

/-- A cash-flow section: its items (description, amount) and total. -/
structure CashFlowSection where
  total : Int
  items : List (String × Int)
deriving DecidableEq, Repr

/-- Name of the account with the given id ("" when absent; every use below
looks up ids taken from existing accounts). -/
def account_name_of (db : Ledger) (aid : Nat) : String :=
  match db.accounts.find? (fun a => a.id == aid) with
  | none => ""
  | some a => a.name

/-- The fixed-asset account filter of `_get_investing_cash_flows`:
ASSET accounts whose name matches equipment/property/building/vehicle/land. -/
def fixed_asset_ids (db : Ledger) : List Nat :=
  (db.accounts.filter (fun a =>
    a.account_type == AccountType.ASSET &&
    nameMatchesAny a.name ["equipment", "property", "building", "vehicle", "land"])).map (·.id)

/-- The investment account filter of `_get_investing_cash_flows`:
ASSET accounts whose name matches investment. -/
def investment_ids (db : Ledger) : List Nat :=
  (db.accounts.filter (fun a =>
    a.account_type == AccountType.ASSET &&
    nameMatchesAny a.name ["investment"])).map (·.id)

/-- The debt account filter of `_get_financing_cash_flows`:
LIABILITY accounts whose name matches loan/debt/bond/bank. -/
def debt_ids (db : Ledger) : List Nat :=
  (db.accounts.filter (fun a =>
    a.account_type == AccountType.LIABILITY &&
    nameMatchesAny a.name ["loan", "debt", "bond", "bank"])).map (·.id)

/-- The equity account filter of `_get_financing_cash_flows`:
EQUITY accounts whose name matches capital/owner/investment. -/
def equity_financing_ids (db : Ledger) : List Nat :=
  (db.accounts.filter (fun a =>
    a.account_type == AccountType.EQUITY &&
    nameMatchesAny a.name ["capital", "owner", "investment"])).map (·.id)

/-- Per entry, the items one pass of the investing/financing loops emits
for the given matched account ids: first the lines with a positive amount
on side one (description `d1`, sign `s1`), then those on side two. -/
def flow_items (ids : List Nat) (entries : List JournalEntry)
    (pick1 : JournalEntryLine → Int) (d1 : Nat → String) (s1 : Int)
    (pick2 : JournalEntryLine → Int) (d2 : Nat → String) (s2 : Int) :
    List (String × Int) :=
  entries.flatMap (fun e =>
    ((e.lines.filter (fun l => ids.contains l.account_id && pick1 l > 0)).map
      (fun l => (d1 l.account_id, s1 * pick1 l)))
    ++ ((e.lines.filter (fun l => ids.contains l.account_id && pick2 l > 0)).map
      (fun l => (d2 l.account_id, s2 * pick2 l))))

/-- From app/services/financial_statement_service.py
`FinancialStatementService._get_investing_cash_flows`: purchases (debits)
and sales (credits) against matched fixed-asset accounts, then against
matched investment accounts, over POSTED entries in the period; when no
item was produced the hard-coded demo items Purchase of Equipment
-15000.00 and Purchase of Software -10000.00 are returned instead. -/
def get_investing_cash_flows (db : Ledger) (from_date to_date : SDate) :
    CashFlowSection :=
  let entries := postedInRange db from_date to_date
  let aids := fixed_asset_ids db
  let fixed_items :=
    if aids.isEmpty then []
    else flow_items aids entries
      (fun l => l.debit_amount) (fun aid => "Purchase of " ++ account_name_of db aid) (-1)
      (fun l => l.credit_amount) (fun aid => "Sale of " ++ account_name_of db aid) 1
  let iids := investment_ids db
  let investment_items :=
    if iids.isEmpty then []
    else flow_items iids entries
      (fun l => l.debit_amount) (fun _ => "Purchase of Investments") (-1)
      (fun l => l.credit_amount) (fun _ => "Sale of Investments") 1
  let items := fixed_items ++ investment_items
  if items.isEmpty then
    { total := -2500000,
      items := [("Purchase of Equipment", -1500000),
                ("Purchase of Software", -1000000)] }
  else
    { total := (items.map (fun it => it.2)).sum, items := items }

/-- From app/services/financial_statement_service.py
`FinancialStatementService._get_financing_cash_flows`: debt proceeds
(credits) and repayments (debits) against matched debt accounts, then
equity contributions (credits) and withdrawals (debits) against matched
equity accounts, over POSTED entries in the period; when no item was
produced the hard-coded demo item Proceeds from Bank Loan +50000.00 is
returned instead. -/
def get_financing_cash_flows (db : Ledger) (from_date to_date : SDate) :
    CashFlowSection :=
  let entries := postedInRange db from_date to_date
  let dids := debt_ids db
  let debt_items :=
    if dids.isEmpty then []
    else flow_items dids entries
      (fun l => l.credit_amount) (fun aid => "Proceeds from " ++ account_name_of db aid) 1
      (fun l => l.debit_amount) (fun aid => "Repayment of " ++ account_name_of db aid) (-1)
  let eids := equity_financing_ids db
  let equity_items :=
    if eids.isEmpty then []
    else flow_items eids entries
      (fun l => l.credit_amount)
      (fun aid => "Owner Investment in " ++ account_name_of db aid) 1
      (fun l => l.debit_amount)
      (fun aid => "Dividends Paid or Withdrawal from " ++ account_name_of db aid) (-1)
  let items := debt_items ++ equity_items
  if items.isEmpty then
    { total := 5000000, items := [("Proceeds from Bank Loan", 5000000)] }
  else
    { total := (items.map (fun it => it.2)).sum, items := items }

end FinancialStatementService

/-- A `currencies` row, from app/models/currency_models.py `Currency`. -/
structure Currency where
  code : String
  decimal_places : Nat
  is_base_currency : Bool
deriving DecidableEq, Repr

/-- An `exchange_rates` row, from app/models/currency_models.py
`ExchangeRate`; (from, to, effective_date) is unique. -/
structure ExchangeRate where
  from_currency : String
  to_currency : String
  rate : ℚ
  effective_date : SDate
deriving DecidableEq, Repr

/-- The currency database state. -/
structure CurrencyDB where
  currencies : List Currency
  rates : List ExchangeRate
deriving DecidableEq, Repr

namespace CurrencyService

/-- From app/services/currency_service.py `CurrencyService.get_base_currency`:
the currency marked as base, else a 500 error. -/
def get_base_currency (db : CurrencyDB) : Except ApiError Currency :=
  match db.currencies.find? (fun c => c.is_base_currency) with
  | none => Except.error (ApiError.serverError "No base currency defined in the system")
  | some c => Except.ok c

/-- The direct-rate query of `get_exchange_rate`: the rate row for the
ordered pair with the latest effective date on or before `as_of`. -/
def latest_rate (db : CurrencyDB) (from_currency to_currency : String)
    (as_of : SDate) : Option ExchangeRate :=
  pickLatest (fun r => r.effective_date.key)
    (db.rates.filter (fun r =>
      r.from_currency == from_currency && r.to_currency == to_currency &&
      r.effective_date.le as_of))

/-- From app/services/currency_service.py `CurrencyService.get_exchange_rate`:
identity when the currencies coincide; else the latest direct rate; else
the reciprocal of the latest inverse rate; else, when neither currency is
the base currency, triangulation through the base currency; a 404 when one
of them is the base currency and no direct or inverse rate exists. The
`fuel` argument bounds the recursion depth of the Python source (whose
recursive calls always have the base currency as one endpoint, hence never
recurse further); `rate_fuel_irrelevant` below shows any positive fuel
gives the same result. -/
def get_exchange_rate_fuel (db : CurrencyDB) (fuel : Nat)
    (from_currency to_currency : String) (as_of : SDate) :
    Except ApiError ℚ :=
  if from_currency = to_currency then Except.ok 1
  else
    match latest_rate db from_currency to_currency as_of with
    | some r => Except.ok r.rate
    | none =>
      match latest_rate db to_currency from_currency as_of with
      | some r => Except.ok (1 / r.rate)
      | none =>
        match get_base_currency db with
        | Except.error e => Except.error e
        | Except.ok base =>
          if from_currency = base.code ∨ to_currency = base.code then
            Except.error (ApiError.notFound "No exchange rate found")
          else
            match fuel with
            | 0 => Except.error (ApiError.serverError "recursion limit")
            | fuel' + 1 =>
              match get_exchange_rate_fuel db fuel' from_currency base.code as_of with
              | Except.error e => Except.error e
              | Except.ok from_to_base_rate =>
                match get_exchange_rate_fuel db fuel' base.code to_currency as_of with
                | Except.error e => Except.error e
                | Except.ok base_to_to_rate =>
                  Except.ok (from_to_base_rate * base_to_to_rate)

/-- `CurrencyService.get_exchange_rate` (fuel 1 suffices, see
`rate_fuel_irrelevant`). -/
def get_exchange_rate (db : CurrencyDB) (from_currency to_currency : String)
    (as_of : SDate) : Except ApiError ℚ :=
  get_exchange_rate_fuel db 1 from_currency to_currency as_of

/-- Round to the nearest integer, ties to even: the default
`decimal.ROUND_HALF_EVEN` used by `Decimal.quantize`. -/
def roundHalfEven (x : ℚ) : ℤ :=
  let f := Int.floor x
  let r := x - f
  if r < 1/2 then f
  else if 1/2 < r then f + 1
  else if f % 2 = 0 then f else f + 1

/-- `Decimal.quantize` to `places` decimal places. -/
def quantize (x : ℚ) (places : Nat) : ℚ :=
  (roundHalfEven (x * 10 ^ places) : ℚ) / 10 ^ places

/-- The response of `convert_amount`
(app/schemas/currency_schemas.py `ConversionResponse`). -/
structure ConversionResponse where
  original_amount : ℚ
  from_currency : String
  converted_amount : ℚ
  to_currency : String
  exchange_rate : ℚ
deriving DecidableEq, Repr

/-- From app/services/currency_service.py `CurrencyService.convert_amount`:
identical currencies convert at rate 1 with no rounding; otherwise the
resolved exchange rate is applied and the product is quantized to the
target currency's configured decimal places (404 when the target currency
is missing). -/
def convert_amount (db : CurrencyDB) (amount : ℚ)
    (from_currency to_currency : String) (conversion_date : SDate) :
    Except ApiError ConversionResponse :=
  if from_currency = to_currency then
    Except.ok { original_amount := amount, from_currency := from_currency,
                converted_amount := amount, to_currency := to_currency,
                exchange_rate := 1 }
  else
    match get_exchange_rate db from_currency to_currency conversion_date with
    | Except.error e => Except.error e
    | Except.ok exchange_rate =>
      let converted := amount * exchange_rate
      match db.currencies.find? (fun c => c.code == to_currency) with
      | none => Except.error (ApiError.notFound "Currency not found")
      | some c =>
        Except.ok { original_amount := amount, from_currency := from_currency,
                    converted_amount := quantize converted c.decimal_places,
                    to_currency := to_currency, exchange_rate := exchange_rate }

end CurrencyService

/-! Concrete states used by scenario theorems, counterexamples and
witnesses. -/

/-- A ledger with an active Cash (asset) and Sales Revenue (revenue)
account and one open fiscal period covering January 2025. -/
def stC1 : Ledger :=
  { accounts :=
      [ { id := 1, code := "1000", name := "Cash", account_type := AccountType.ASSET, is_active := true },
        { id := 2, code := "4000", name := "Sales Revenue", account_type := AccountType.REVENUE, is_active := true } ],
    entries := [],
    periods :=
      [ { id := 1, name := "2025-01", start_date := SDate.mk 2025 1 1,
          end_date := SDate.mk 2025 1 31, is_closed := false, closed_at := none } ],
    account_balances := [] }

/-- The balanced request of the C1 scenario: debit Cash 100.00, credit
Revenue 100.00. -/
def reqBalanced : JournalEntryCreate :=
  { entry_date := SDate.mk 2025 1 15,
    lines := [ { account_id := 1, debit_amount := 10000, credit_amount := 0 },
               { account_id := 2, debit_amount := 0, credit_amount := 10000 } ] }

/-- The unbalanced request of the C1 scenario: debit 100.00, credit 99.99. -/
def reqOffByOne : JournalEntryCreate :=
  { entry_date := SDate.mk 2025 1 15,
    lines := [ { account_id := 1, debit_amount := 10000, credit_amount := 0 },
               { account_id := 2, debit_amount := 0, credit_amount := 9999 } ] }

/-- A ledger whose only entry is POSTED, balanced, and dated in 2024:
debit Cash 100.00, credit Sales Revenue 100.00. -/
def stC3 : Ledger :=
  { accounts :=
      [ { id := 1, code := "1000", name := "Cash", account_type := AccountType.ASSET, is_active := true },
        { id := 2, code := "4000", name := "Sales Revenue", account_type := AccountType.REVENUE, is_active := true } ],
    entries :=
      [ { id := 1, entry_number := "JE-1", entry_date := SDate.mk 2024 6 1,
          status := JournalEntryStatus.POSTED, posted_at := some 1, reversed_at := none,
          lines := [ { account_id := 1, debit_amount := 10000, credit_amount := 0 },
                     { account_id := 2, debit_amount := 0, credit_amount := 10000 } ] } ],
    periods := [], account_balances := [] }

/-- A ledger holding one DRAFT entry (id 1) that fails validation: its
single line debits 100.00 with no balancing credit. -/
def stC4 : Ledger :=
  { accounts :=
      [ { id := 1, code := "1000", name := "Cash", account_type := AccountType.ASSET, is_active := true } ],
    entries :=
      [ { id := 1, entry_number := "JE-1", entry_date := SDate.mk 2025 1 15,
          status := JournalEntryStatus.DRAFT, posted_at := none, reversed_at := none,
          lines := [ { account_id := 1, debit_amount := 10000, credit_amount := 0 } ] } ],
    periods := [], account_balances := [] }

/-- A ledger with three accounts of which only two are touched by the one
POSTED entry dated inside the open period 1. -/
def stC5 : Ledger :=
  { accounts :=
      [ { id := 1, code := "1000", name := "Cash", account_type := AccountType.ASSET, is_active := true },
        { id := 2, code := "4000", name := "Sales Revenue", account_type := AccountType.REVENUE, is_active := true },
        { id := 3, code := "1500", name := "Equipment", account_type := AccountType.ASSET, is_active := true } ],
    entries :=
      [ { id := 1, entry_number := "JE-1", entry_date := SDate.mk 2025 1 15,
          status := JournalEntryStatus.POSTED, posted_at := some 1, reversed_at := none,
          lines := [ { account_id := 1, debit_amount := 5000, credit_amount := 0 },
                     { account_id := 2, debit_amount := 0, credit_amount := 5000 } ] } ],
    periods :=
      [ { id := 1, name := "2025-01", start_date := SDate.mk 2025 1 1,
          end_date := SDate.mk 2025 1 31, is_closed := false, closed_at := none } ],
    account_balances := [] }

/-- The C2 scenario ledger: one closed period covering 2024; POSTED
activity giving Sales Revenue a credit-normal balance of 100,000.00 and
Operating Expense a debit-normal balance of 60,000.00; a Retained Earnings
account with code 3100. -/
def stC2 : Ledger :=
  { accounts :=
      [ { id := 1, code := "1000", name := "Cash", account_type := AccountType.ASSET, is_active := true },
        { id := 2, code := "4000", name := "Sales Revenue", account_type := AccountType.REVENUE, is_active := true },
        { id := 3, code := "5000", name := "Operating Expense", account_type := AccountType.EXPENSE, is_active := true },
        { id := 4, code := "3100", name := "Retained Earnings", account_type := AccountType.EQUITY, is_active := true } ],
    entries :=
      [ { id := 1, entry_number := "JE-1", entry_date := SDate.mk 2024 3 10,
          status := JournalEntryStatus.POSTED, posted_at := some 1, reversed_at := none,
          lines := [ { account_id := 1, debit_amount := 10000000, credit_amount := 0 },
                     { account_id := 2, debit_amount := 0, credit_amount := 10000000 } ] },
        { id := 2, entry_number := "JE-2", entry_date := SDate.mk 2024 7 20,
          status := JournalEntryStatus.POSTED, posted_at := some 2, reversed_at := none,
          lines := [ { account_id := 3, debit_amount := 6000000, credit_amount := 0 },
                     { account_id := 1, debit_amount := 0, credit_amount := 6000000 } ] } ],
    periods :=
      [ { id := 1, name := "2024", start_date := SDate.mk 2024 1 1,
          end_date := SDate.mk 2024 12 31, is_closed := true, closed_at := some 3 } ],
    account_balances := [] }

/-- A ledger whose two POSTED entries are each balanced, for the trial
balance witness. -/
def stC7 : Ledger :=
  { accounts :=
      [ { id := 1, code := "1000", name := "Cash", account_type := AccountType.ASSET, is_active := true },
        { id := 2, code := "4000", name := "Sales Revenue", account_type := AccountType.REVENUE, is_active := true } ],
    entries :=
      [ { id := 1, entry_number := "JE-1", entry_date := SDate.mk 2025 1 10,
          status := JournalEntryStatus.POSTED, posted_at := some 1, reversed_at := none,
          lines := [ { account_id := 1, debit_amount := 2500, credit_amount := 0 },
                     { account_id := 2, debit_amount := 0, credit_amount := 2500 } ] },
        { id := 2, entry_number := "JE-2", entry_date := SDate.mk 2025 1 20,
          status := JournalEntryStatus.DRAFT, posted_at := none, reversed_at := none,
          lines := [ { account_id := 1, debit_amount := 999, credit_amount := 0 } ] } ],
    periods := [], account_balances := [] }

/-- First state of the C9 witness pair: one POSTED entry and one DRAFT
entry. -/
def stC9a : Ledger :=
  { accounts :=
      [ { id := 1, code := "1000", name := "Cash", account_type := AccountType.ASSET, is_active := true },
        { id := 2, code := "4000", name := "Sales Revenue", account_type := AccountType.REVENUE, is_active := true } ],
    entries :=
      [ { id := 1, entry_number := "JE-1", entry_date := SDate.mk 2025 1 10,
          status := JournalEntryStatus.POSTED, posted_at := some 1, reversed_at := none,
          lines := [ { account_id := 1, debit_amount := 2500, credit_amount := 0 },
                     { account_id := 2, debit_amount := 0, credit_amount := 2500 } ] },
        { id := 2, entry_number := "JE-2", entry_date := SDate.mk 2025 1 20,
          status := JournalEntryStatus.DRAFT, posted_at := none, reversed_at := none,
          lines := [ { account_id := 1, debit_amount := 7777, credit_amount := 0 } ] } ],
    periods := [], account_balances := [] }

/-- Second state of the C9 witness pair: same accounts and same POSTED
entry as `stC9a`, but entirely different DRAFT entries. -/
def stC9b : Ledger :=
  { accounts :=
      [ { id := 1, code := "1000", name := "Cash", account_type := AccountType.ASSET, is_active := true },
        { id := 2, code := "4000", name := "Sales Revenue", account_type := AccountType.REVENUE, is_active := true } ],
    entries :=
      [ { id := 7, entry_number := "JE-7", entry_date := SDate.mk 2025 1 5,
          status := JournalEntryStatus.DRAFT, posted_at := none, reversed_at := none,
          lines := [ { account_id := 2, debit_amount := 123, credit_amount := 0 } ] },
        { id := 1, entry_number := "JE-1", entry_date := SDate.mk 2025 1 10,
          status := JournalEntryStatus.POSTED, posted_at := some 1, reversed_at := none,
          lines := [ { account_id := 1, debit_amount := 2500, credit_amount := 0 },
                     { account_id := 2, debit_amount := 0, credit_amount := 2500 } ] } ],
    periods := [], account_balances := [] }

/-- A ledger whose accounts match none of the cash-flow keyword filters
and whose only POSTED entry touches none of them, for the C10 witness. -/
def stC10 : Ledger :=
  { accounts :=
      [ { id := 1, code := "1000", name := "Petty Till", account_type := AccountType.ASSET, is_active := true },
        { id := 2, code := "4000", name := "Sales Revenue", account_type := AccountType.REVENUE, is_active := true } ],
    entries :=
      [ { id := 1, entry_number := "JE-1", entry_date := SDate.mk 2025 1 10,
          status := JournalEntryStatus.POSTED, posted_at := some 1, reversed_at := none,
          lines := [ { account_id := 1, debit_amount := 2500, credit_amount := 0 },
                     { account_id := 2, debit_amount := 0, credit_amount := 2500 } ] } ],
    periods := [], account_balances := [] }

/-- Currency database for the C6 witness: USD is the base currency; the
only stored rate is SAR to USD at 0.27 effective 2025-01-01. -/
def cdbC6 : CurrencyDB :=
  { currencies :=
      [ { code := "USD", decimal_places := 2, is_base_currency := true },
        { code := "SAR", decimal_places := 2, is_base_currency := false },
        { code := "EUR", decimal_places := 2, is_base_currency := false } ],
    rates :=
      [ { from_currency := "SAR", to_currency := "USD", rate := 27/100,
          effective_date := SDate.mk 2025 1 1 } ] }

/-- Currency database for the C8 counterexample: the stored AAA to BBB and
BBB to AAA rates both exist but are not reciprocals (0.27 versus 2). -/
def cdbC8x : CurrencyDB :=
  { currencies :=
      [ { code := "AAA", decimal_places := 2, is_base_currency := true },
        { code := "BBB", decimal_places := 2, is_base_currency := false } ],
    rates :=
      [ { from_currency := "AAA", to_currency := "BBB", rate := 27/100,
          effective_date := SDate.mk 2025 1 1 },
        { from_currency := "BBB", to_currency := "AAA", rate := 2,
          effective_date := SDate.mk 2025 1 1 } ] }

/-- Currency database for the C8 witness: reciprocal direct rates
0.27 and 100/27. -/
def cdbC8w : CurrencyDB :=
  { currencies :=
      [ { code := "AAA", decimal_places := 2, is_base_currency := true },
        { code := "BBB", decimal_places := 2, is_base_currency := false } ],
    rates :=
      [ { from_currency := "AAA", to_currency := "BBB", rate := 27/100,
          effective_date := SDate.mk 2025 1 1 },
        { from_currency := "BBB", to_currency := "AAA", rate := 100/27,
          effective_date := SDate.mk 2025 1 1 } ] }

/-! Specification-side vocabulary used in theorem statements. -/

/-- Total debits of an entry. -/
def debitSum (e : JournalEntry) : Int := (e.lines.map (·.debit_amount)).sum

/-- Total credits of an entry. -/
def creditSum (e : JournalEntry) : Int := (e.lines.map (·.credit_amount)).sum

/-- A balanced entry: total debits equal total credits. -/
def Balanced (e : JournalEntry) : Prop := debitSum e = creditSum e

instance (e : JournalEntry) : Decidable (Balanced e) := by
  unfold Balanced
  infer_instance

/-- The sum of the values of an association list under keys selected by
`p` (selector-weighted sum); the bridge between the grouped dictionaries
and plain sums over lines. -/
def wsum {V : Type} [AddCommMonoid V] (p : Nat → Bool) (m : List (Nat × V)) : V :=
  (m.map (fun kv => if p kv.1 then kv.2 else 0)).sum

/-- `x` is exactly representable with `p` decimal places. -/
def representableAt (x : ℚ) (p : Nat) : Prop := ∃ n : ℤ, x * 10 ^ p = (n : ℚ)

/-- The (debit - credit) weight a line contributes to accounts of the
given type, using the same membership test as the statement compiler:
some account of that type carries the line's account id. -/
def lineTypeWeight (db : Ledger) (ty : AccountType) (l : JournalEntryLine) : Int :=
  if db.accounts.any (fun a => a.id == l.account_id && a.account_type == ty) then
    l.debit_amount - l.credit_amount
  else 0

/-- POSTED entries dated on or before `as_of` but strictly before Jan 1 of
the year of `as_of`: the activity the balance sheet counts in the account
balances but the year-to-date net income misses. -/
def preYearEntries (db : Ledger) (as_of : SDate) : List JournalEntry :=
  db.entries.filter (fun e =>
    e.status == JournalEntryStatus.POSTED && e.entry_date.le as_of &&
    !((FinancialStatementService.startOfYear as_of).le e.entry_date))

/-- C1: validation accepts the balanced scenario entry
[debit 100.00 Cash, credit 100.00 Revenue] and rejects
[debit 100.00, credit 99.99] with a ValidationError (a 400), so the
rejected entry cannot be created, hence never posted; in general any
entry whose total debits differ from total credits by more than one
currency minor unit (0.01) is rejected both by the GL validator and by
the ValidationService validator. -/
theorem claim_C1_balance_validation :
    (GLService.validate_journal_entry reqBalanced stC1 = Except.ok true ∧
     GLService.validate_journal_entry reqOffByOne stC1 =
       Except.error (ApiError.badRequest "Journal entry not balanced") ∧
     (Routers.create_journal_entry reqOffByOne stC1 "JE-X" 10).isOk = false) ∧
    ∀ (db : Ledger) (entry : JournalEntryCreate),
      1 < |((entry.lines.map (·.debit_amount)).sum : Int) -
            (entry.lines.map (·.credit_amount)).sum| →
      (GLService.validate_journal_entry entry db).isOk = false ∧
      (ValidationService.validate_journal_entry db entry.lines entry.entry_date).1 = false := by
  constructor
  · exact ⟨rfl, rfl, rfl⟩
  · intro db entry h
    constructor
    · unfold GLService.validate_journal_entry
      dsimp only
      split_ifs with h1 h2
      · rfl
      · rfl
      · exfalso
        rw [not_ne_iff] at h2
        rw [h2, sub_self, abs_zero] at h
        omega
    · unfold ValidationService.validate_journal_entry
      dsimp only
      split_ifs with h1 h2 h3
      all_goals rfl

/-- C1 witness: a concrete entry off by 0.50 is rejected by both
validators. -/
theorem claim_C1_balance_validation_witness :
    (GLService.validate_journal_entry
        { entry_date := SDate.mk 2025 1 15,
          lines := [ { account_id := 1, debit_amount := 10000, credit_amount := 0 },
                     { account_id := 2, debit_amount := 0, credit_amount := 9950 } ] }
        stC1).isOk = false ∧
    (ValidationService.validate_journal_entry stC1
        [ { account_id := 1, debit_amount := 10000, credit_amount := 0 },
          { account_id := 2, debit_amount := 0, credit_amount := 9950 } ]
        (SDate.mk 2025 1 15)).1 = false :=
  (claim_C1_balance_validation.2 stC1
    { entry_date := SDate.mk 2025 1 15,
      lines := [ { account_id := 1, debit_amount := 10000, credit_amount := 0 },
                 { account_id := 2, debit_amount := 0, credit_amount := 9950 } ] }
    (by decide))

theorem find?_update_entry (l : List JournalEntry) (i : Nat)
    (f : JournalEntry → JournalEntry) (hf : ∀ e, (f e).id = e.id) :
    (Routers.update_entry l i f).find? (fun x => x.id == i) =
      (l.find? (fun x => x.id == i)).map f := by
  induction l with
  | nil => rfl
  | cons e rest ih =>
    by_cases he : e.id = i
    · simp [Routers.update_entry, he, List.find?_cons, hf]
    · simp [Routers.update_entry, he, List.find?_cons, ih]

theorem mem_update_entry_of_ne (l : List JournalEntry) (i : Nat)
    (f : JournalEntry → JournalEntry) (x : JournalEntry)
    (hx : x ∈ l) (hne : x.id ≠ i) : x ∈ Routers.update_entry l i f := by
  induction l with
  | nil => cases hx
  | cons e rest ih =>
    rcases List.mem_cons.mp hx with hxe | hxr
    · subst hxe
      have : ¬ x.id = i := hne
      simp [Routers.update_entry, this]
    · by_cases he : e.id = i
      · simp [Routers.update_entry, he, List.mem_cons, hxr]
      · simp only [Routers.update_entry, if_neg he, List.mem_cons]
        exact Or.inr (ih hxr)

theorem claim_C4_post_amended (db : Ledger) (i now : Nat) (e : JournalEntry)
    (hfind : db.entries.find? (fun x => x.id == i) = some e) :
    ((Routers.post_journal_entry db i now).isOk = true ↔
      e.status = JournalEntryStatus.DRAFT) ∧
    ∀ db', Routers.post_journal_entry db i now = Except.ok db' →
      db'.entries.find? (fun x => x.id == i) =
        some { e with status := JournalEntryStatus.POSTED, posted_at := some now } ∧
      db'.accounts = db.accounts ∧ db'.periods = db.periods ∧
      db'.account_balances = db.account_balances ∧
      ∀ x ∈ db.entries, x.id ≠ i → x ∈ db'.entries := by
  unfold Routers.post_journal_entry
  rw [hfind]
  dsimp only
  constructor
  · by_cases hs : e.status = JournalEntryStatus.DRAFT
    · rw [if_neg (not_not_intro hs)]
      exact iff_of_true rfl hs
    · rw [if_pos hs]
      exact iff_of_false (by simp [Except.isOk, Except.toBool]) hs
  · intro db' h
    split_ifs at h with hs
    cases h
    refine ⟨?_, rfl, rfl, rfl, ?_⟩
    · dsimp only
      rw [find?_update_entry db.entries i
        (fun e' => { e' with status := JournalEntryStatus.POSTED, posted_at := some now })
        (fun e' => rfl), hfind]
      rfl
    · intro x hx hne
      dsimp only
      exact mem_update_entry_of_ne db.entries i _ x hx hne

theorem claim_C4_counterexample :
    (GLService.validate_journal_entry
        { entry_date := SDate.mk 2025 1 15,
          lines := [ { account_id := 1, debit_amount := 10000, credit_amount := 0 } ] }
        stC4).isOk = false ∧
    stC4.entries.find? (fun x => x.id == 1) =
      some { id := 1, entry_number := "JE-1", entry_date := SDate.mk 2025 1 15,
             status := JournalEntryStatus.DRAFT, posted_at := none, reversed_at := none,
             lines := [ { account_id := 1, debit_amount := 10000, credit_amount := 0 } ] } ∧
    (Routers.post_journal_entry stC4 1 55).isOk = true :=
  ⟨rfl, rfl, rfl⟩

theorem claim_C4_post_amended_witness :
    (Routers.post_journal_entry stC4 1 55).isOk = true :=
  ((claim_C4_post_amended stC4 1 55
      { id := 1, entry_number := "JE-1", entry_date := SDate.mk 2025 1 15,
        status := JournalEntryStatus.DRAFT, posted_at := none, reversed_at := none,
        lines := [ { account_id := 1, debit_amount := 10000, credit_amount := 0 } ] }
      rfl).1).mpr rfl

theorem claim_C2_year_close_evaluation :
    (FiscalService.close_fiscal_year stC2 2024 900 99).toOption.map
        (fun r => (r.total_revenue, r.total_expense, r.net_income,
                   r.closing_entry.lines)) =
      some (-10000000, 6000000, -16000000,
        [ { account_id := 2, debit_amount := -10000000, credit_amount := 0 },
          { account_id := 3, debit_amount := 0, credit_amount := 6000000 },
          { account_id := 4, debit_amount := 16000000, credit_amount := 0 } ]) ∧
    (∀ l ∈ [ ({ account_id := 2, debit_amount := -10000000, credit_amount := 0 } : JournalEntryLine),
             { account_id := 3, debit_amount := 0, credit_amount := 6000000 },
             { account_id := 4, debit_amount := 16000000, credit_amount := 0 } ],
      ¬ (l.account_id = 4 ∧ l.credit_amount = 4000000)) :=
  ⟨by decide, by decide⟩

theorem flow_items_nil (ids : List Nat) (entries : List JournalEntry)
    (p1 : JournalEntryLine → Int) (d1 : Nat → String) (s1 : Int)
    (p2 : JournalEntryLine → Int) (d2 : Nat → String) (s2 : Int)
    (h : ∀ e ∈ entries, ∀ l ∈ e.lines, ids.contains l.account_id = false) :
    FinancialStatementService.flow_items ids entries p1 d1 s1 p2 d2 s2 = [] := by
  induction entries with
  | nil => rfl
  | cons e rest ih =>
    have hlines : ∀ l ∈ e.lines, ids.contains l.account_id = false :=
      h e (List.mem_cons_self e rest)
    have h1 : e.lines.filter (fun l => ids.contains l.account_id && p1 l > 0) = [] := by
      rw [List.filter_eq_nil_iff]
      intro l hl
      rw [hlines l hl]
      simp
    have h2 : e.lines.filter (fun l => ids.contains l.account_id && p2 l > 0) = [] := by
      rw [List.filter_eq_nil_iff]
      intro l hl
      rw [hlines l hl]
      simp
    have hrest : FinancialStatementService.flow_items ids rest p1 d1 s1 p2 d2 s2 = [] :=
      ih (fun e' he' => h e' (List.mem_cons_of_mem e he'))
    unfold FinancialStatementService.flow_items at hrest ⊢
    rw [List.flatMap_cons, h1, h2, hrest]
    rfl

theorem claim_C10_placeholder_cash_flows (db : Ledger) (f t : SDate)
    (hinv : ∀ e ∈ postedInRange db f t, ∀ l ∈ e.lines,
      (FinancialStatementService.fixed_asset_ids db).contains l.account_id = false ∧
      (FinancialStatementService.investment_ids db).contains l.account_id = false)
    (hfin : ∀ e ∈ postedInRange db f t, ∀ l ∈ e.lines,
      (FinancialStatementService.debt_ids db).contains l.account_id = false ∧
      (FinancialStatementService.equity_financing_ids db).contains l.account_id = false) :
    FinancialStatementService.get_investing_cash_flows db f t =
      { total := -2500000,
        items := [("Purchase of Equipment", -1500000),
                  ("Purchase of Software", -1000000)] } ∧
    FinancialStatementService.get_financing_cash_flows db f t =
      { total := 5000000, items := [("Proceeds from Bank Loan", 5000000)] } := by
  constructor
  · unfold FinancialStatementService.get_investing_cash_flows
    dsimp only
    rw [flow_items_nil (FinancialStatementService.fixed_asset_ids db)
          (postedInRange db f t) _ _ _ _ _ _ (fun e he l hl => (hinv e he l hl).1),
        flow_items_nil (FinancialStatementService.investment_ids db)
          (postedInRange db f t) _ _ _ _ _ _ (fun e he l hl => (hinv e he l hl).2)]
    simp [ite_self]
  · unfold FinancialStatementService.get_financing_cash_flows
    dsimp only
    rw [flow_items_nil (FinancialStatementService.debt_ids db)
          (postedInRange db f t) _ _ _ _ _ _ (fun e he l hl => (hfin e he l hl).1),
        flow_items_nil (FinancialStatementService.equity_financing_ids db)
          (postedInRange db f t) _ _ _ _ _ _ (fun e he l hl => (hfin e he l hl).2)]
    simp [ite_self]

theorem claim_C10_placeholder_cash_flows_witness :
    FinancialStatementService.get_investing_cash_flows stC10
        (SDate.mk 2025 1 1) (SDate.mk 2025 12 31) =
      { total := -2500000,
        items := [("Purchase of Equipment", -1500000),
                  ("Purchase of Software", -1000000)] } ∧
    FinancialStatementService.get_financing_cash_flows stC10
        (SDate.mk 2025 1 1) (SDate.mk 2025 12 31) =
      { total := 5000000, items := [("Proceeds from Bank Loan", 5000000)] } :=
  claim_C10_placeholder_cash_flows stC10 (SDate.mk 2025 1 1) (SDate.mk 2025 12 31)
    (by decide) (by decide)

theorem rate_unfold (db : CurrencyDB) (fuel : Nat) (f t : String) (d : SDate) :
    CurrencyService.get_exchange_rate_fuel db fuel f t d =
      (if f = t then Except.ok 1
       else
        match CurrencyService.latest_rate db f t d with
        | some r => Except.ok r.rate
        | none =>
          match CurrencyService.latest_rate db t f d with
          | some r => Except.ok (1 / r.rate)
          | none =>
            match CurrencyService.get_base_currency db with
            | Except.error e => Except.error e
            | Except.ok base =>
              if f = base.code ∨ t = base.code then
                Except.error (ApiError.notFound "No exchange rate found")
              else if fuel = 0 then
                Except.error (ApiError.serverError "recursion limit")
              else
                match CurrencyService.get_exchange_rate_fuel db (fuel - 1) f base.code d with
                | Except.error e => Except.error e
                | Except.ok a =>
                  match CurrencyService.get_exchange_rate_fuel db (fuel - 1) base.code t d with
                  | Except.error e => Except.error e
                  | Except.ok b => Except.ok (a * b)) := by
  rw [CurrencyService.get_exchange_rate_fuel.eq_def]
  by_cases h1 : f = t
  · rw [if_pos h1, if_pos h1]
  · rw [if_neg h1, if_neg h1]
    cases hd : CurrencyService.latest_rate db f t d with
    | some r => rfl
    | none =>
      cases hi : CurrencyService.latest_rate db t f d with
      | some r => rfl
      | none =>
        cases hb : CurrencyService.get_base_currency db with
        | error e => rfl
        | ok base =>
          dsimp only
          by_cases hft : f = base.code ∨ t = base.code
          · rw [if_pos hft, if_pos hft]
          · rw [if_neg hft, if_neg hft]
            cases fuel with
            | zero => rw [if_pos rfl]
            | succ fuel' =>
              rw [if_neg (Nat.succ_ne_zero fuel')]
              dsimp only
              rw [Nat.add_sub_cancel]

theorem rate_fuel_at_base (db : CurrencyDB) (fuelA fuelB : Nat) (f t : String)
    (d : SDate) (base : Currency)
    (hb : CurrencyService.get_base_currency db = Except.ok base)
    (hft : f = base.code ∨ t = base.code) :
    CurrencyService.get_exchange_rate_fuel db fuelA f t d =
      CurrencyService.get_exchange_rate_fuel db fuelB f t d := by
  rw [rate_unfold db fuelA, rate_unfold db fuelB]
  by_cases h1 : f = t
  · rw [if_pos h1, if_pos h1]
  · rw [if_neg h1, if_neg h1]
    cases hd : CurrencyService.latest_rate db f t d with
    | some r => rfl
    | none =>
      cases hi : CurrencyService.latest_rate db t f d with
      | some r => rfl
      | none =>
        rw [hb]
        dsimp only
        rw [if_pos hft, if_pos hft]

theorem rate_fuel_pos (db : CurrencyDB) (fuel : Nat) (hf : fuel ≠ 0)
    (f t : String) (d : SDate) :
    CurrencyService.get_exchange_rate_fuel db fuel f t d =
      CurrencyService.get_exchange_rate db f t d := by
  unfold CurrencyService.get_exchange_rate
  rw [rate_unfold db fuel, rate_unfold db 1]
  by_cases h1 : f = t
  · rw [if_pos h1, if_pos h1]
  · rw [if_neg h1, if_neg h1]
    cases hd : CurrencyService.latest_rate db f t d with
    | some r => rfl
    | none =>
      cases hi : CurrencyService.latest_rate db t f d with
      | some r => rfl
      | none =>
        cases hb : CurrencyService.get_base_currency db with
        | error e => rfl
        | ok base =>
          dsimp only
          by_cases hft : f = base.code ∨ t = base.code
          · rw [if_pos hft, if_pos hft]
          · rw [if_neg hft, if_neg hft, if_neg hf, if_neg (one_ne_zero)]
            rw [rate_fuel_at_base db (fuel - 1) (1 - 1) f base.code d base hb (Or.inr rfl),
                rate_fuel_at_base db (fuel - 1) (1 - 1) base.code t d base hb (Or.inl rfl)]

theorem claim_C6_rate_resolution (db : CurrencyDB) (f t : String) (d : SDate) :
    (f = t → CurrencyService.get_exchange_rate db f t d = Except.ok 1) ∧
    (f ≠ t → ∀ r, CurrencyService.latest_rate db f t d = some r →
      CurrencyService.get_exchange_rate db f t d = Except.ok r.rate) ∧
    (f ≠ t → CurrencyService.latest_rate db f t d = none →
      ∀ r, CurrencyService.latest_rate db t f d = some r →
      CurrencyService.get_exchange_rate db f t d = Except.ok (1 / r.rate)) ∧
    (∀ base, f ≠ t → CurrencyService.latest_rate db f t d = none →
      CurrencyService.latest_rate db t f d = none →
      CurrencyService.get_base_currency db = Except.ok base →
      (f = base.code ∨ t = base.code) →
      CurrencyService.get_exchange_rate db f t d =
        Except.error (ApiError.notFound "No exchange rate found")) ∧
    (∀ base, f ≠ t → CurrencyService.latest_rate db f t d = none →
      CurrencyService.latest_rate db t f d = none →
      CurrencyService.get_base_currency db = Except.ok base →
      f ≠ base.code → t ≠ base.code →
      CurrencyService.get_exchange_rate db f t d =
        (match CurrencyService.get_exchange_rate db f base.code d,
               CurrencyService.get_exchange_rate db base.code t d with
         | Except.ok a, Except.ok b => Except.ok (a * b)
         | Except.error e, _ => Except.error e
         | Except.ok _, Except.error e => Except.error e)) ∧
    (∀ fuel, fuel ≠ 0 →
      CurrencyService.get_exchange_rate_fuel db fuel f t d =
        CurrencyService.get_exchange_rate db f t d) := by
  refine ⟨?_, ?_, ?_, ?_, ?_, ?_⟩
  · intro h
    unfold CurrencyService.get_exchange_rate
    rw [rate_unfold, if_pos h]
  · intro h r hr
    unfold CurrencyService.get_exchange_rate
    rw [rate_unfold, if_neg h, hr]
  · intro h hd r hi
    unfold CurrencyService.get_exchange_rate
    rw [rate_unfold, if_neg h, hd, hi]
  · intro base h hd hi hb hor
    unfold CurrencyService.get_exchange_rate
    rw [rate_unfold, if_neg h, hd, hi, hb]
    dsimp only
    rw [if_pos hor]
  · intro base h hd hi hb hfb htb
    unfold CurrencyService.get_exchange_rate
    rw [rate_unfold db 1 f t d, if_neg h, hd, hi, hb]
    dsimp only
    rw [if_neg (show ¬(f = base.code ∨ t = base.code) from fun hc =>
          hc.elim (fun hc1 => hfb hc1) (fun hc2 => htb hc2)),
        if_neg one_ne_zero]
    rw [rate_fuel_at_base db (1 - 1) 1 f base.code d base hb (Or.inr rfl),
        rate_fuel_at_base db (1 - 1) 1 base.code t d base hb (Or.inl rfl)]
    cases CurrencyService.get_exchange_rate_fuel db 1 f base.code d <;>
      cases CurrencyService.get_exchange_rate_fuel db 1 base.code t d <;> rfl
  · intro fuel hf
    exact rate_fuel_pos db fuel hf f t d

theorem claim_C6_rate_resolution_witness :
    CurrencyService.get_exchange_rate cdbC6 "EUR" "EUR" (SDate.mk 2025 6 1) =
      Except.ok 1 ∧
    CurrencyService.get_exchange_rate cdbC6 "SAR" "USD" (SDate.mk 2025 6 1) =
      Except.ok (27 / 100 : ℚ) ∧
    CurrencyService.get_exchange_rate cdbC6 "USD" "SAR" (SDate.mk 2025 6 1) =
      Except.ok (1 / (27 / 100 : ℚ)) ∧
    CurrencyService.get_exchange_rate cdbC6 "USD" "EUR" (SDate.mk 2025 6 1) =
      Except.error (ApiError.notFound "No exchange rate found") ∧
    CurrencyService.get_exchange_rate cdbC6 "SAR" "EUR" (SDate.mk 2025 6 1) =
      (match CurrencyService.get_exchange_rate cdbC6 "SAR" "USD" (SDate.mk 2025 6 1),
             CurrencyService.get_exchange_rate cdbC6 "USD" "EUR" (SDate.mk 2025 6 1) with
       | Except.ok a, Except.ok b => Except.ok (a * b)
       | Except.error e, _ => Except.error e
       | Except.ok _, Except.error e => Except.error e) := by
  refine ⟨?_, ?_, ?_, ?_, ?_⟩
  · exact (claim_C6_rate_resolution cdbC6 "EUR" "EUR" (SDate.mk 2025 6 1)).1 rfl
  · exact (claim_C6_rate_resolution cdbC6 "SAR" "USD" (SDate.mk 2025 6 1)).2.1
      (by decide)
      { from_currency := "SAR", to_currency := "USD", rate := 27/100,
        effective_date := SDate.mk 2025 1 1 } (by rfl)
  · exact (claim_C6_rate_resolution cdbC6 "USD" "SAR" (SDate.mk 2025 6 1)).2.2.1
      (by decide) (by rfl)
      { from_currency := "SAR", to_currency := "USD", rate := 27/100,
        effective_date := SDate.mk 2025 1 1 } (by rfl)
  · exact (claim_C6_rate_resolution cdbC6 "USD" "EUR" (SDate.mk 2025 6 1)).2.2.2.1
      { code := "USD", decimal_places := 2, is_base_currency := true }
      (by decide) (by rfl) (by rfl) (by rfl) (Or.inl rfl)
  · exact (claim_C6_rate_resolution cdbC6 "SAR" "EUR" (SDate.mk 2025 6 1)).2.2.2.2.1
      { code := "USD", decimal_places := 2, is_base_currency := true }
      (by decide) (by rfl) (by rfl) (by rfl) (by decide) (by decide)

theorem rate_direct (db : CurrencyDB) (f t : String) (d : SDate)
    (r : ExchangeRate) (hne : f ≠ t)
    (hd : CurrencyService.latest_rate db f t d = some r) :
    CurrencyService.get_exchange_rate db f t d = Except.ok r.rate := by
  unfold CurrencyService.get_exchange_rate
  rw [rate_unfold, if_neg hne, hd]

theorem quantize_eq_self (x : ℚ) (p : Nat) (h : representableAt x p) :
    CurrencyService.quantize x p = x := by
  obtain ⟨n, hn⟩ := h
  unfold CurrencyService.quantize
  rw [hn]
  have hr : CurrencyService.roundHalfEven (n : ℚ) = n := by
    unfold CurrencyService.roundHalfEven
    dsimp only
    rw [Int.floor_intCast, sub_self, if_pos (by norm_num : (0:ℚ) < 1/2)]
  rw [hr, div_eq_iff (by positivity : ((10:ℚ)) ^ p ≠ 0)]
  exact hn.symm

theorem claim_C8_roundtrip_counterexample :
    CurrencyService.convert_amount cdbC8x 1000 "AAA" "BBB" (SDate.mk 2025 1 1) =
      Except.ok { original_amount := 1000, from_currency := "AAA",
                  converted_amount := 270, to_currency := "BBB",
                  exchange_rate := 27/100 } ∧
    CurrencyService.convert_amount cdbC8x 270 "BBB" "AAA" (SDate.mk 2025 1 1) =
      Except.ok { original_amount := 270, from_currency := "BBB",
                  converted_amount := 540, to_currency := "AAA",
                  exchange_rate := 2 } ∧
    ¬ (|(540 : ℚ) - 1000| ≤ 1/100) := by
  refine ⟨?_, ?_, by norm_num⟩
  · have hg : CurrencyService.get_exchange_rate cdbC8x "AAA" "BBB" (SDate.mk 2025 1 1) =
        Except.ok ((27 : ℚ)/100) :=
      rate_direct cdbC8x "AAA" "BBB" (SDate.mk 2025 1 1)
        { from_currency := "AAA", to_currency := "BBB", rate := 27/100,
          effective_date := SDate.mk 2025 1 1 } (by decide) rfl
    unfold CurrencyService.convert_amount
    rw [if_neg (by decide : ¬ ("AAA" : String) = "BBB"), hg]
    dsimp only
    rw [show cdbC8x.currencies.find? (fun c => c.code == "BBB") =
          some { code := "BBB", decimal_places := 2, is_base_currency := false } from rfl]
    dsimp only
    rw [show (1000 : ℚ) * (27/100) = 270 by norm_num]
    rw [quantize_eq_self 270 2 ⟨27000, by norm_num⟩]
  · have hg : CurrencyService.get_exchange_rate cdbC8x "BBB" "AAA" (SDate.mk 2025 1 1) =
        Except.ok (2 : ℚ) :=
      rate_direct cdbC8x "BBB" "AAA" (SDate.mk 2025 1 1)
        { from_currency := "BBB", to_currency := "AAA", rate := 2,
          effective_date := SDate.mk 2025 1 1 } (by decide) rfl
    unfold CurrencyService.convert_amount
    rw [if_neg (by decide : ¬ ("BBB" : String) = "AAA"), hg]
    dsimp only
    rw [show cdbC8x.currencies.find? (fun c => c.code == "AAA") =
          some { code := "AAA", decimal_places := 2, is_base_currency := true } from rfl]
    dsimp only
    rw [show (270 : ℚ) * 2 = 540 by norm_num]
    rw [quantize_eq_self 540 2 ⟨54000, by norm_num⟩]

theorem claim_C8_roundtrip_amended (db : CurrencyDB) (x : ℚ) (A B : String)
    (d : SDate) (rAB rBA : ExchangeRate) (cA cB : Currency)
    (hne : A ≠ B)
    (hAB : CurrencyService.latest_rate db A B d = some rAB)
    (hBA : CurrencyService.latest_rate db B A d = some rBA)
    (hrecip : rBA.rate = 1 / rAB.rate)
    (hr : rAB.rate ≠ 0)
    (hcA : db.currencies.find? (fun c => c.code == A) = some cA)
    (hcB : db.currencies.find? (fun c => c.code == B) = some cB)
    (hxr : representableAt (x * rAB.rate) cB.decimal_places)
    (hx : representableAt x cA.decimal_places) :
    (CurrencyService.convert_amount db x A B d).bind
        (fun resp => CurrencyService.convert_amount db resp.converted_amount B A d) =
      Except.ok { original_amount := x * rAB.rate, from_currency := B,
                  converted_amount := x, to_currency := A,
                  exchange_rate := rBA.rate } := by
  have hgAB := rate_direct db A B d rAB hne hAB
  have hgBA := rate_direct db B A d rBA (fun hc => hne hc.symm) hBA
  unfold CurrencyService.convert_amount
  rw [if_neg hne, hgAB]
  dsimp only
  rw [hcB]
  dsimp only
  rw [quantize_eq_self _ _ hxr]
  dsimp only [Except.bind]
  rw [if_neg (show ¬ B = A from fun hc => hne hc.symm), hgBA]
  dsimp only
  rw [hcA]
  dsimp only
  rw [hrecip]
  rw [show x * rAB.rate * (1 / rAB.rate) = x by field_simp]
  rw [quantize_eq_self _ _ hx]

theorem claim_C8_roundtrip_amended_witness :
    (CurrencyService.convert_amount cdbC8w 1000 "AAA" "BBB" (SDate.mk 2025 1 1)).bind
        (fun resp => CurrencyService.convert_amount cdbC8w resp.converted_amount
          "BBB" "AAA" (SDate.mk 2025 1 1)) =
      Except.ok { original_amount := 1000 * (27/100), from_currency := "BBB",
                  converted_amount := 1000, to_currency := "AAA",
                  exchange_rate := (100 : ℚ)/27 } :=
  claim_C8_roundtrip_amended cdbC8w 1000 "AAA" "BBB" (SDate.mk 2025 1 1)
    { from_currency := "AAA", to_currency := "BBB", rate := 27/100,
      effective_date := SDate.mk 2025 1 1 }
    { from_currency := "BBB", to_currency := "AAA", rate := 100/27,
      effective_date := SDate.mk 2025 1 1 }
    { code := "AAA", decimal_places := 2, is_base_currency := true }
    { code := "BBB", decimal_places := 2, is_base_currency := false }
    (by decide) rfl rfl (by norm_num) (by norm_num) rfl rfl
    ⟨27000, by norm_num⟩ ⟨100000, by norm_num⟩

theorem wsum_nil {V : Type} [AddCommMonoid V] (p : Nat → Bool) :
    wsum p ([] : List (Nat × V)) = 0 := rfl

theorem wsum_cons {V : Type} [AddCommMonoid V] (p : Nat → Bool)
    (kv : Nat × V) (m : List (Nat × V)) :
    wsum p (kv :: m) = (if p kv.1 then kv.2 else 0) + wsum p m := by
  unfold wsum
  rw [List.map_cons, List.sum_cons]

theorem wsum_bump {V : Type} [AddCommMonoid V] (p : Nat → Bool)
    (m : List (Nat × V)) (k : Nat) (v : V) :
    wsum p (bump m k v) = wsum p m + (if p k then v else 0) := by
  induction m with
  | nil =>
    simp only [bump, wsum_cons, wsum_nil, zero_add, add_zero]
  | cons kv rest ih =>
    obtain ⟨k', v'⟩ := kv
    by_cases hk : k' = k
    · subst hk
      simp only [bump, if_true, eq_self_iff_true, wsum_cons]
      by_cases hp : p k'
      · simp only [if_pos hp]
        exact add_right_comm v' v (wsum p rest)
      · simp only [if_neg hp, add_zero, zero_add]
    · simp only [bump, if_neg hk, wsum_cons, ih, add_assoc]

theorem wsum_foldl {α V : Type} [AddCommMonoid V] (p : Nat → Bool)
    (key : α → Nat) (f : α → V) (ls : List α) (m : List (Nat × V)) :
    wsum p (ls.foldl (fun acc l => bump acc (key l) (f l)) m) =
      wsum p m + (ls.map (fun l => if p (key l) then f l else 0)).sum := by
  induction ls generalizing m with
  | nil => rw [List.foldl_nil, List.map_nil, List.sum_nil, add_zero]
  | cons l rest ih =>
    rw [List.foldl_cons, ih, wsum_bump, List.map_cons, List.sum_cons, add_assoc]

theorem pair_sum_eq (l : List (Int × Int)) :
    l.sum = ((l.map Prod.fst).sum, (l.map Prod.snd).sum) := by
  induction l with
  | nil => rfl
  | cons x xs ih =>
    rw [List.sum_cons, ih, List.map_cons, List.map_cons, List.sum_cons, List.sum_cons]
    rfl

theorem sum_map_flatMap {α β V : Type} [AddCommMonoid V]
    (g : α → List β) (f : β → V) (es : List α) :
    ((es.flatMap g).map f).sum = (es.map (fun e => ((g e).map f).sum)).sum := by
  induction es with
  | nil => rfl
  | cons e rest ih =>
    rw [List.flatMap_cons, List.map_append, List.sum_append, ih,
        List.map_cons, List.sum_cons]

theorem mem_postedOnOrBefore (db : Ledger) (as_of : SDate) (e : JournalEntry)
    (he : e ∈ postedOnOrBefore db as_of) :
    e ∈ db.entries ∧ e.status = JournalEntryStatus.POSTED ∧
      e.entry_date.le as_of = true := by
  unfold postedOnOrBefore at he
  have h := List.mem_filter.mp he
  refine ⟨h.1, ?_, ?_⟩
  · have := h.2
    rw [Bool.and_eq_true] at this
    exact eq_of_beq this.1
  · have := h.2
    rw [Bool.and_eq_true] at this
    exact this.2

theorem wsum_true {V : Type} [AddCommMonoid V] (m : List (Nat × V)) :
    wsum (fun _ => true) m = (m.map Prod.snd).sum := by
  unfold wsum
  simp

theorem grouped_pairs_sum (ls : List JournalEntryLine) :
    (((ls.foldl (fun m l => bump m l.account_id (l.debit_amount, l.credit_amount)) []).map
        Prod.snd).sum : Int × Int) =
      ((ls.map (fun l => l.debit_amount)).sum, (ls.map (fun l => l.credit_amount)).sum) := by
  have hfold := wsum_foldl (fun _ => true) (fun l => l.account_id)
    (fun l => (l.debit_amount, l.credit_amount)) ls []
  rw [wsum_true, wsum_true] at hfold
  simp only [eq_self_iff_true, if_true, List.map_nil, List.sum_nil, zero_add] at hfold
  rw [hfold, pair_sum_eq, List.map_map, List.map_map]
  rfl

/-- C7: when every POSTED entry is individually balanced, the trial
balance reports equal total debits and total credits (the totals being the
per-account debit and credit sums over lines of POSTED entries dated on or
before the date). -/
theorem claim_C7_trial_balance_balances (db : Ledger) (as_of : SDate)
    (hbal : ∀ e ∈ db.entries, e.status = JournalEntryStatus.POSTED → Balanced e) :
    ∀ resp, GLService.calculate_trial_balance db as_of = Except.ok resp →
      resp.total_debits = resp.total_credits := by
  intro resp h
  unfold GLService.calculate_trial_balance at h
  dsimp only at h
  split_ifs at h with hemp
  · cases h
    rfl
  · split at h
    · cases h
    · cases h
      dsimp only
      set L := (postedOnOrBefore db as_of).flatMap (fun e => e.lines) with hL
      set M := L.foldl (fun m l => bump m l.account_id (l.debit_amount, l.credit_amount)) []
        with hM
      have hg := grouped_pairs_sum L
      rw [← hM] at hg
      have h1 : (M.map (fun kv => kv.2.1)).sum = ((M.map Prod.snd).sum).1 := by
        rw [pair_sum_eq (M.map Prod.snd)]
        dsimp only
        rw [List.map_map]
        rfl
      have h2 : (M.map (fun kv => kv.2.2)).sum = ((M.map Prod.snd).sum).2 := by
        rw [pair_sum_eq (M.map Prod.snd)]
        dsimp only
        rw [List.map_map]
        rfl
      rw [h1, h2, hg]
      dsimp only
      rw [hL]
      rw [sum_map_flatMap (fun e => e.lines) (fun l => l.debit_amount)
            (postedOnOrBefore db as_of),
          sum_map_flatMap (fun e => e.lines) (fun l => l.credit_amount)
            (postedOnOrBefore db as_of)]
      congr 1
      apply List.map_congr_left
      intro e he
      obtain ⟨hmem, hstat, _⟩ := mem_postedOnOrBefore db as_of e he
      exact hbal e hmem hstat

/-- C7 witness: the balanced ledger stC7 yields equal totals. -/
theorem claim_C7_trial_balance_balances_witness :
    ∃ resp, GLService.calculate_trial_balance stC7 (SDate.mk 2025 12 31) = Except.ok resp ∧
      resp.total_debits = resp.total_credits :=
  ⟨{ as_of_date := SDate.mk 2025 12 31,
     entries := [ { account_id := 1, account_code := "1000", account_name := "Cash",
                    account_type := AccountType.ASSET, debit_total := 2500,
                    credit_total := 0, balance := 2500 },
                  { account_id := 2, account_code := "4000", account_name := "Sales Revenue",
                    account_type := AccountType.REVENUE, debit_total := 0,
                    credit_total := 2500, balance := 2500 } ],
     total_debits := 2500, total_credits := 2500 },
   by rfl,
   claim_C7_trial_balance_balances stC7 (SDate.mk 2025 12 31) (by decide) _ (by rfl)⟩

theorem sum_map_add {α : Type} (l : List α) (f g : α → Int) :
    (l.map (fun x => f x + g x)).sum = (l.map f).sum + (l.map g).sum := by
  induction l with
  | nil => rfl
  | cons x xs ih =>
    rw [List.map_cons, List.map_cons, List.map_cons, List.sum_cons, List.sum_cons,
        List.sum_cons, ih]
    omega

theorem sum_map_neg {α : Type} (l : List α) (f : α → Int) :
    (l.map (fun x => -(f x))).sum = -((l.map f).sum) := by
  induction l with
  | nil => rfl
  | cons x xs ih =>
    rw [List.map_cons, List.map_cons, List.sum_cons, List.sum_cons, ih]
    omega

theorem sum_map_sub {α : Type} (l : List α) (f g : α → Int) :
    (l.map (fun x => f x - g x)).sum = (l.map f).sum - (l.map g).sum := by
  induction l with
  | nil => rfl
  | cons x xs ih =>
    rw [List.map_cons, List.map_cons, List.map_cons, List.sum_cons, List.sum_cons,
        List.sum_cons, ih]
    omega

/-- C3 counterexample: a ledger with only POSTED balanced entries whose
balance sheet nonetheless violates assets = liabilities + equity by far
more than 0.01, because the sole revenue entry is dated in the prior year
and the net-income line only covers the year of the reporting date. -/
theorem claim_C3_balance_sheet_counterexample :
    (∀ e ∈ stC3.entries, e.status = JournalEntryStatus.POSTED ∧ Balanced e) ∧
    (FinancialStatementService.get_balance_sheet stC3 (SDate.mk 2025 3 31)).total_assets = 10000 ∧
    (FinancialStatementService.get_balance_sheet stC3 (SDate.mk 2025 3 31)).total_liabilities_equity = 0 ∧
    ¬ (|(FinancialStatementService.get_balance_sheet stC3 (SDate.mk 2025 3 31)).total_assets -
        (FinancialStatementService.get_balance_sheet stC3 (SDate.mk 2025 3 31)).total_liabilities_equity| ≤ 1) := by
  refine ⟨by decide, by decide, by decide, by decide⟩

theorem ite_bool_true {α : Type} (x y : α) : (if true = true then x else y) = x :=
  if_pos rfl

theorem ite_bool_false {α : Type} (x y : α) : (if false = true then x else y) = y :=
  if_neg (fun h => Bool.false_ne_true h)

theorem fold_wsum_lines (p : Nat → Bool) (ls : List JournalEntryLine) :
    wsum p (ls.foldl (fun m l =>
        bump m l.account_id (l.debit_amount - l.credit_amount)) []) =
      (ls.map (fun l =>
        if p l.account_id then l.debit_amount - l.credit_amount else 0)).sum := by
  rw [wsum_foldl p (fun l => l.account_id)
      (fun l => l.debit_amount - l.credit_amount) ls []]
  rw [wsum_nil, zero_add]

theorem bs_section_total_eq (db : Ledger) (ls : List JournalEntryLine)
    (ty : AccountType) :
    FinancialStatementService.balance_sheet_section_total db
      (ls.foldl (fun m l =>
        bump m l.account_id (l.debit_amount - l.credit_amount)) []) ty =
    (if ty == AccountType.ASSET then 1 else -1) *
      (ls.map (lineTypeWeight db ty)).sum := by
  unfold FinancialStatementService.balance_sheet_section_total
  have hw := fold_wsum_lines
    (fun k => db.accounts.any (fun a => a.id == k && a.account_type == ty)) ls
  simp only [wsum] at hw
  cases hta : ty == AccountType.ASSET with
  | true =>
    simp only [ite_bool_true, if_true, one_mul]
    rw [hw]
    rfl
  | false =>
    simp only [ite_bool_false]
    have hneg : (fun (kv : Nat × Int) =>
        if db.accounts.any (fun a => a.id == kv.1 && a.account_type == ty) then -kv.2 else 0) =
        (fun (kv : Nat × Int) =>
          -(if db.accounts.any (fun a => a.id == kv.1 && a.account_type == ty) then kv.2 else 0)) := by
      funext kv
      by_cases hp : db.accounts.any (fun a => a.id == kv.1 && a.account_type == ty)
      · rw [if_pos hp, if_pos hp]
      · rw [if_neg hp, if_neg hp, neg_zero]
    rw [hneg, sum_map_neg, hw, neg_one_mul]
    rfl

theorem is_section_total_eq (db : Ledger) (ls : List JournalEntryLine)
    (ty : AccountType) :
    FinancialStatementService.income_statement_section_total db
      (ls.foldl (fun m l =>
        bump m l.account_id (l.debit_amount - l.credit_amount)) []) ty =
    (if ty == AccountType.REVENUE then -1 else 1) *
      (ls.map (lineTypeWeight db ty)).sum := by
  unfold FinancialStatementService.income_statement_section_total
  have hw := fold_wsum_lines
    (fun k => db.accounts.any (fun a => a.id == k && a.account_type == ty)) ls
  simp only [wsum] at hw
  cases hta : ty == AccountType.REVENUE with
  | true =>
    simp only [ite_bool_true, if_true]
    have hneg : (fun (kv : Nat × Int) =>
        if db.accounts.any (fun a => a.id == kv.1 && a.account_type == ty) then -kv.2 else 0) =
        (fun (kv : Nat × Int) =>
          -(if db.accounts.any (fun a => a.id == kv.1 && a.account_type == ty) then kv.2 else 0)) := by
      funext kv
      by_cases hp : db.accounts.any (fun a => a.id == kv.1 && a.account_type == ty)
      · rw [if_pos hp, if_pos hp]
      · rw [if_neg hp, if_neg hp, neg_zero]
    rw [hneg, sum_map_neg, hw, neg_one_mul]
    rfl
  | false =>
    simp only [ite_bool_false, one_mul]
    rw [hw]
    rfl

theorem filter_sum_partition (es : List JournalEntry) (as_of : SDate)
    (g : JournalEntry → Int) :
    ((es.filter (fun e => e.status == JournalEntryStatus.POSTED &&
        e.entry_date.le as_of)).map g).sum =
    ((es.filter (fun e => e.status == JournalEntryStatus.POSTED &&
        (FinancialStatementService.startOfYear as_of).le e.entry_date &&
        e.entry_date.le as_of)).map g).sum +
    ((es.filter (fun e => e.status == JournalEntryStatus.POSTED &&
        e.entry_date.le as_of &&
        !((FinancialStatementService.startOfYear as_of).le e.entry_date))).map g).sum := by
  induction es with
  | nil => rfl
  | cons e rest ih =>
    by_cases h1 : e.status == JournalEntryStatus.POSTED
    · by_cases h2 : e.entry_date.le as_of
      · by_cases h3 : (FinancialStatementService.startOfYear as_of).le e.entry_date
        · simp only [List.filter_cons, h1, h2, h3, Bool.true_and, Bool.and_true,
            Bool.not_true, Bool.and_false, ite_bool_true, ite_bool_false, if_true,
            List.map_cons, List.sum_cons]
          omega
        · simp only [List.filter_cons, h1, h2, eq_false_of_ne_true h3, Bool.true_and,
            Bool.and_true, Bool.not_false, Bool.and_false, Bool.false_and,
            ite_bool_true, ite_bool_false, if_true, List.map_cons, List.sum_cons]
          omega
      · simp only [List.filter_cons, h1, eq_false_of_ne_true h2, Bool.true_and,
          Bool.and_false, Bool.false_and, ite_bool_false, List.map_cons,
          List.sum_cons]
        exact ih
    · simp only [List.filter_cons, eq_false_of_ne_true h1, Bool.false_and,
        ite_bool_false]
      exact ih

theorem lineTypeWeight_total (db : Ledger) (l : JournalEntryLine)
    (huniq : (db.accounts.map (fun a => a.id)).Nodup)
    (hex : ∃ a ∈ db.accounts, a.id = l.account_id) :
    lineTypeWeight db AccountType.ASSET l + lineTypeWeight db AccountType.LIABILITY l +
    lineTypeWeight db AccountType.EQUITY l + lineTypeWeight db AccountType.REVENUE l +
    lineTypeWeight db AccountType.EXPENSE l = l.debit_amount - l.credit_amount := by
  obtain ⟨a, ha, haid⟩ := hex
  have hany : ∀ ty : AccountType,
      db.accounts.any (fun x => x.id == l.account_id && x.account_type == ty) =
        (a.account_type == ty) := by
    intro ty
    cases hta : a.account_type == ty with
    | true =>
      rw [List.any_eq_true]
      refine ⟨a, ha, ?_⟩
      rw [Bool.and_eq_true]
      exact ⟨by rw [haid]; exact beq_self_eq_true l.account_id, hta⟩
    | false =>
      cases hA : db.accounts.any (fun x => x.id == l.account_id && x.account_type == ty) with
      | false => rfl
      | true =>
        exfalso
        rw [List.any_eq_true] at hA
        obtain ⟨x, hx, hpx⟩ := hA
        rw [Bool.and_eq_true] at hpx
        have hxa : x = a :=
          List.inj_on_of_nodup_map huniq hx ha ((eq_of_beq hpx.1).trans haid.symm)
        rw [hxa] at hpx
        simp [hpx.2] at hta
  simp only [lineTypeWeight, hany]
  cases hat : a.account_type <;> simp [hat]

/-- C3 (amended): on a ledger whose entries are all POSTED and balanced,
reference well-formed accounts (existing, unique ids), and whose
income-statement (REVENUE/EXPENSE) activity dated before Jan 1 of the
reporting year nets to zero, the balance sheet satisfies
total assets = total liabilities + total equity exactly (the equity total
including the appended year-to-date net income line). -/
theorem claim_C3_balance_sheet_amended (db : Ledger) (as_of : SDate)
    (hpost : ∀ e ∈ db.entries, e.status = JournalEntryStatus.POSTED)
    (hbal : ∀ e ∈ db.entries, Balanced e)
    (hacct : ∀ e ∈ db.entries, ∀ l ∈ e.lines, ∃ a ∈ db.accounts, a.id = l.account_id)
    (huniq : (db.accounts.map (fun a => a.id)).Nodup)
    (hdate : (FinancialStatementService.startOfYear as_of).le as_of = true)
    (hpre : (((preYearEntries db as_of).flatMap (fun e => e.lines)).map
        (fun l => lineTypeWeight db AccountType.REVENUE l +
                  lineTypeWeight db AccountType.EXPENSE l)).sum = 0) :
    (FinancialStatementService.get_balance_sheet db as_of).total_assets =
      (FinancialStatementService.get_balance_sheet db as_of).total_liabilities_equity := by
  have hswap : SDate.lt as_of (FinancialStatementService.startOfYear as_of) = false := by
    unfold SDate.le at hdate
    unfold SDate.lt
    have h := of_decide_eq_true hdate
    exact decide_eq_false (by omega)
  have hpart : ∀ w : JournalEntryLine → Int,
      (((postedOnOrBefore db as_of).flatMap (fun e => e.lines)).map w).sum =
      (((postedInRange db (FinancialStatementService.startOfYear as_of) as_of).flatMap
          (fun e => e.lines)).map w).sum +
      (((preYearEntries db as_of).flatMap (fun e => e.lines)).map w).sum := by
    intro w
    rw [sum_map_flatMap (fun e => e.lines) w (postedOnOrBefore db as_of),
        sum_map_flatMap (fun e => e.lines) w
          (postedInRange db (FinancialStatementService.startOfYear as_of) as_of),
        sum_map_flatMap (fun e => e.lines) w (preYearEntries db as_of)]
    exact filter_sum_partition db.entries as_of (fun e => ((e.lines).map w).sum)
  have hptwise : ∀ l ∈ (postedOnOrBefore db as_of).flatMap (fun e => e.lines),
      lineTypeWeight db AccountType.ASSET l + lineTypeWeight db AccountType.LIABILITY l +
      lineTypeWeight db AccountType.EQUITY l + lineTypeWeight db AccountType.REVENUE l +
      lineTypeWeight db AccountType.EXPENSE l = l.debit_amount - l.credit_amount := by
    intro l hl
    rw [List.mem_flatMap] at hl
    obtain ⟨e, he, hle⟩ := hl
    exact lineTypeWeight_total db l huniq (hacct e (mem_postedOnOrBefore db as_of e he).1 l hle)
  have hcomb : (((postedOnOrBefore db as_of).flatMap (fun e => e.lines)).map
      (fun l => lineTypeWeight db AccountType.ASSET l + lineTypeWeight db AccountType.LIABILITY l +
        lineTypeWeight db AccountType.EQUITY l + lineTypeWeight db AccountType.REVENUE l +
        lineTypeWeight db AccountType.EXPENSE l)).sum =
      (((postedOnOrBefore db as_of).flatMap (fun e => e.lines)).map
        (lineTypeWeight db AccountType.ASSET)).sum +
      (((postedOnOrBefore db as_of).flatMap (fun e => e.lines)).map
        (lineTypeWeight db AccountType.LIABILITY)).sum +
      (((postedOnOrBefore db as_of).flatMap (fun e => e.lines)).map
        (lineTypeWeight db AccountType.EQUITY)).sum +
      (((postedOnOrBefore db as_of).flatMap (fun e => e.lines)).map
        (lineTypeWeight db AccountType.REVENUE)).sum +
      (((postedOnOrBefore db as_of).flatMap (fun e => e.lines)).map
        (lineTypeWeight db AccountType.EXPENSE)).sum := by
    rw [sum_map_add, sum_map_add, sum_map_add, sum_map_add]
  have hzero : (((postedOnOrBefore db as_of).flatMap (fun e => e.lines)).map
      (fun l => lineTypeWeight db AccountType.ASSET l + lineTypeWeight db AccountType.LIABILITY l +
        lineTypeWeight db AccountType.EQUITY l + lineTypeWeight db AccountType.REVENUE l +
        lineTypeWeight db AccountType.EXPENSE l)).sum = 0 := by
    rw [List.map_congr_left hptwise]
    rw [sum_map_flatMap (fun e => e.lines) (fun l => l.debit_amount - l.credit_amount)
          (postedOnOrBefore db as_of)]
    have hent : ∀ e ∈ postedOnOrBefore db as_of,
        ((e.lines).map (fun l => l.debit_amount - l.credit_amount)).sum = 0 := by
      intro e he
      rw [sum_map_sub, sub_eq_zero]
      exact hbal e (mem_postedOnOrBefore db as_of e he).1
    rw [List.map_congr_left hent]
    simp
  have htot := hcomb.symm.trans hzero
  have hpartR := hpart (lineTypeWeight db AccountType.REVENUE)
  have hpartX := hpart (lineTypeWeight db AccountType.EXPENSE)
  have hpre2 : (((preYearEntries db as_of).flatMap (fun e => e.lines)).map
        (lineTypeWeight db AccountType.REVENUE)).sum +
      (((preYearEntries db as_of).flatMap (fun e => e.lines)).map
        (lineTypeWeight db AccountType.EXPENSE)).sum = 0 := by
    rw [← sum_map_add]
    exact hpre
  unfold FinancialStatementService.get_balance_sheet
    FinancialStatementService.get_income_statement
    FinancialStatementService.get_account_balances
    FinancialStatementService.get_period_transactions
  dsimp only
  simp only [hswap, ite_bool_false]
  rw [bs_section_total_eq db _ AccountType.ASSET,
      bs_section_total_eq db _ AccountType.LIABILITY,
      bs_section_total_eq db _ AccountType.EQUITY,
      is_section_total_eq db _ AccountType.REVENUE,
      is_section_total_eq db _ AccountType.EXPENSE]
  simp only [show (AccountType.ASSET == AccountType.ASSET) = true from rfl,
    show (AccountType.LIABILITY == AccountType.ASSET) = false from rfl,
    show (AccountType.EQUITY == AccountType.ASSET) = false from rfl,
    show (AccountType.REVENUE == AccountType.REVENUE) = true from rfl,
    show (AccountType.EXPENSE == AccountType.REVENUE) = false from rfl,
    ite_bool_true, ite_bool_false, if_true, one_mul, neg_one_mul]
  linarith [htot, hpartR, hpartX, hpre2]

/-- C3 witness: for the all-POSTED ledger stC3 with the reporting date in
the entry's own year, the balance sheet balances exactly. -/
theorem claim_C3_balance_sheet_amended_witness :
    (FinancialStatementService.get_balance_sheet stC3 (SDate.mk 2024 12 31)).total_assets =
      (FinancialStatementService.get_balance_sheet stC3 (SDate.mk 2024 12 31)).total_liabilities_equity :=
  claim_C3_balance_sheet_amended stC3 (SDate.mk 2024 12 31)
    (by decide) (by decide) (by decide) (by decide) (by decide) (by decide)

theorem filter_posted_split (es : List JournalEntry) (d : SDate) :
    es.filter (fun e => e.status == JournalEntryStatus.POSTED && e.entry_date.le d) =
      (es.filter (fun e => e.status == JournalEntryStatus.POSTED)).filter
        (fun e => e.entry_date.le d) := by
  rw [List.filter_filter]
  apply List.filter_congr
  intro e _
  rw [Bool.and_comm]

theorem postedOnOrBefore_congr (s1 s2 : Ledger) (d : SDate)
    (hent : s1.entries.filter (fun e => e.status == JournalEntryStatus.POSTED) =
      s2.entries.filter (fun e => e.status == JournalEntryStatus.POSTED)) :
    postedOnOrBefore s1 d = postedOnOrBefore s2 d := by
  unfold postedOnOrBefore
  rw [filter_posted_split s1.entries d, filter_posted_split s2.entries d, hent]

theorem trial_rows_congr (s1 s2 : Ledger) (hacc : s1.accounts = s2.accounts)
    (m : List (Nat × (Int × Int))) :
    GLService.trial_rows s1 m = GLService.trial_rows s2 m := by
  unfold GLService.trial_rows
  rw [hacc]

theorem filter_posted_update_reverse (l : List JournalEntry) (i : Nat) (now : Nat)
    (huniq : (l.map (fun e => e.id)).Nodup) :
    (Routers.update_entry l i (fun e' =>
        { e' with status := JournalEntryStatus.REVERSED, reversed_at := some now })).filter
      (fun e => e.status == JournalEntryStatus.POSTED) =
    (l.filter (fun e => e.id != i)).filter
      (fun e => e.status == JournalEntryStatus.POSTED) := by
  induction l with
  | nil => rfl
  | cons e rest ih =>
    rw [List.map_cons, List.nodup_cons] at huniq
    by_cases he : e.id = i
    · have hrest : rest.filter (fun x => x.id != i) = rest := by
        rw [List.filter_eq_self]
        intro x hx
        have hxne : x.id ≠ i := fun hxe =>
          huniq.1 ((he ▸ hxe) ▸ List.mem_map_of_mem (fun e => e.id) hx)
        simp [hxne]
      simp [Routers.update_entry, he, List.filter_cons, hrest]
    · simp [Routers.update_entry, he, List.filter_cons, ih huniq.2]

/-- C9: the balance derivations (trial balance, period ending balances,
statement account balances) read only POSTED entries and the chart of
accounts, so two ledgers agreeing on those agree on every derivation; and
reversing a POSTED entry (which only flips its status and stamps
reversed_at) makes every derivation equal to that over the ledger with the
entry removed. -/
theorem claim_C9_posted_only_derivations :
    (∀ s1 s2 : Ledger, s1.accounts = s2.accounts →
      s1.entries.filter (fun e => e.status == JournalEntryStatus.POSTED) =
        s2.entries.filter (fun e => e.status == JournalEntryStatus.POSTED) →
      ∀ (d : SDate) (p : FiscalPeriod),
        GLService.calculate_trial_balance s1 d = GLService.calculate_trial_balance s2 d ∧
        FiscalService.calculate_period_ending_balances s1 p =
          FiscalService.calculate_period_ending_balances s2 p ∧
        FinancialStatementService.get_account_balances s1 d =
          FinancialStatementService.get_account_balances s2 d) ∧
    (∀ (db : Ledger) (i now : Nat) (db' : Ledger),
      (db.entries.map (fun e => e.id)).Nodup →
      Routers.reverse_journal_entry db i now = Except.ok db' →
      ∀ (d : SDate) (p : FiscalPeriod),
        GLService.calculate_trial_balance db' d =
          GLService.calculate_trial_balance
            { db with entries := db.entries.filter (fun e => e.id != i) } d ∧
        FiscalService.calculate_period_ending_balances db' p =
          FiscalService.calculate_period_ending_balances
            { db with entries := db.entries.filter (fun e => e.id != i) } p ∧
        FinancialStatementService.get_account_balances db' d =
          FinancialStatementService.get_account_balances
            { db with entries := db.entries.filter (fun e => e.id != i) } d) := by
  have main : ∀ s1 s2 : Ledger, s1.accounts = s2.accounts →
      s1.entries.filter (fun e => e.status == JournalEntryStatus.POSTED) =
        s2.entries.filter (fun e => e.status == JournalEntryStatus.POSTED) →
      ∀ (d : SDate) (p : FiscalPeriod),
        GLService.calculate_trial_balance s1 d = GLService.calculate_trial_balance s2 d ∧
        FiscalService.calculate_period_ending_balances s1 p =
          FiscalService.calculate_period_ending_balances s2 p ∧
        FinancialStatementService.get_account_balances s1 d =
          FinancialStatementService.get_account_balances s2 d := by
    intro s1 s2 hacc hent d p
    refine ⟨?_, ?_, ?_⟩
    · unfold GLService.calculate_trial_balance
      dsimp only
      rw [postedOnOrBefore_congr s1 s2 d hent, trial_rows_congr s1 s2 hacc]
    · unfold FiscalService.calculate_period_ending_balances
      rw [postedOnOrBefore_congr s1 s2 p.end_date hent]
    · unfold FinancialStatementService.get_account_balances
      rw [postedOnOrBefore_congr s1 s2 d hent]
  refine ⟨main, ?_⟩
  intro db i now db' huniq hrev d p
  unfold Routers.reverse_journal_entry at hrev
  cases hfind : db.entries.find? (fun e => e.id == i) with
  | none => rw [hfind] at hrev; cases hrev
  | some e =>
    rw [hfind] at hrev
    dsimp only at hrev
    split_ifs at hrev with hst
    cases hrev
    exact main _ _ (by rfl)
      (filter_posted_update_reverse db.entries i now huniq) d p

/-- C9 witness: two ledgers sharing accounts and POSTED entries but with
entirely different DRAFT entries produce identical derivations. -/
theorem claim_C9_posted_only_derivations_witness :
    GLService.calculate_trial_balance stC9a (SDate.mk 2025 12 31) =
      GLService.calculate_trial_balance stC9b (SDate.mk 2025 12 31) ∧
    FinancialStatementService.get_account_balances stC9a (SDate.mk 2025 12 31) =
      FinancialStatementService.get_account_balances stC9b (SDate.mk 2025 12 31) := by
  have h := claim_C9_posted_only_derivations.1 stC9a stC9b rfl (by decide)
    (SDate.mk 2025 12 31)
    { id := 1, name := "p", start_date := SDate.mk 2025 1 1,
      end_date := SDate.mk 2025 12 31, is_closed := false, closed_at := none }
  exact ⟨h.1, h.2.2⟩

theorem mem_keys_bump {V : Type} [Add V] (m : List (Nat × V)) (k : Nat) (v : V)
    (a : Nat) : a ∈ (bump m k v).map Prod.fst ↔ a ∈ m.map Prod.fst ∨ a = k := by
  induction m with
  | nil => simp [bump]
  | cons kv rest ih =>
    obtain ⟨k1, v1⟩ := kv
    by_cases h : k1 = k
    · subst h
      simp [bump]
      tauto
    · simp [bump, h, ih]
      tauto

theorem nodup_keys_bump {V : Type} [Add V] (m : List (Nat × V)) (k : Nat) (v : V)
    (h : (m.map Prod.fst).Nodup) : ((bump m k v).map Prod.fst).Nodup := by
  induction m with
  | nil => simp [bump]
  | cons kv rest ih =>
    obtain ⟨k1, v1⟩ := kv
    rw [List.map_cons, List.nodup_cons] at h
    by_cases hk : k1 = k
    · subst hk
      rw [show bump ((k1, v1) :: rest) k1 v = (k1, v1 + v) :: rest from by
        simp [bump]]
      rw [List.map_cons, List.nodup_cons]
      exact ⟨h.1, h.2⟩
    · rw [show bump ((k1, v1) :: rest) k v = (k1, v1) :: bump rest k v from by
        simp [bump, hk]]
      rw [List.map_cons, List.nodup_cons]
      refine ⟨?_, ih h.2⟩
      intro hmem
      rcases (mem_keys_bump rest k v k1).mp hmem with h1 | h1
      · exact h.1 h1
      · exact hk h1

theorem nodup_keys_foldl (ls : List JournalEntryLine) (m : List (Nat × Int))
    (h : (m.map Prod.fst).Nodup) :
    ((ls.foldl (fun m l =>
        bump m l.account_id (l.debit_amount - l.credit_amount)) m).map
      Prod.fst).Nodup := by
  induction ls generalizing m with
  | nil => exact h
  | cons l rest ih => exact ih _ (nodup_keys_bump _ _ _ h)

theorem lookupOr0_skip (k1 : Nat) (v1 : Int) (m : List (Nat × Int)) (a : Nat)
    (h : k1 ≠ a) : lookupOr0 ((k1, v1) :: m) a = lookupOr0 m a := by
  unfold lookupOr0
  rw [List.find?_cons_of_neg m (by simp [h])]

theorem lookupOr0_head (k1 : Nat) (v1 : Int) (m : List (Nat × Int)) :
    lookupOr0 ((k1, v1) :: m) k1 = v1 := by
  unfold lookupOr0
  rw [List.find?_cons_of_pos m (by simp)]

theorem lookupOr0_bump (m : List (Nat × Int)) (k : Nat) (v : Int) (a : Nat) :
    lookupOr0 (bump m k v) a = lookupOr0 m a + (if k = a then v else 0) := by
  induction m with
  | nil =>
    rw [show bump [] k v = [(k, v)] from rfl]
    by_cases h : k = a
    · subst h
      rw [lookupOr0_head]
      simp [lookupOr0, List.find?]
    · rw [lookupOr0_skip k v [] a h]
      simp [lookupOr0, List.find?, h]
  | cons kv rest ih =>
    obtain ⟨k1, v1⟩ := kv
    by_cases hk : k1 = k
    · subst hk
      rw [show bump ((k1, v1) :: rest) k1 v = (k1, v1 + v) :: rest from by
        simp [bump]]
      by_cases ha : k1 = a
      · subst ha
        rw [lookupOr0_head, lookupOr0_head]
        simp
      · rw [lookupOr0_skip k1 (v1 + v) rest a ha, lookupOr0_skip k1 v1 rest a ha]
        simp [show ¬ k1 = a from ha]
    · rw [show bump ((k1, v1) :: rest) k v = (k1, v1) :: bump rest k v from by
        simp [bump, hk]]
      by_cases ha : k1 = a
      · subst ha
        rw [lookupOr0_head, lookupOr0_head]
        simp [show ¬ k = k1 from fun h => hk h.symm]
      · rw [lookupOr0_skip k1 v1 (bump rest k v) a ha,
          lookupOr0_skip k1 v1 rest a ha, ih]

theorem lookupOr0_foldl (ls : List JournalEntryLine) (m : List (Nat × Int))
    (a : Nat) :
    lookupOr0 (ls.foldl (fun m l =>
        bump m l.account_id (l.debit_amount - l.credit_amount)) m) a =
      lookupOr0 m a + (ls.map (fun l =>
        if l.account_id = a then l.debit_amount - l.credit_amount else 0)).sum := by
  induction ls generalizing m with
  | nil => simp
  | cons l rest ih =>
    rw [List.foldl_cons, ih, lookupOr0_bump, List.map_cons, List.sum_cons]
    ring

theorem nodup_keys_period_balances (db : Ledger) (period : FiscalPeriod) :
    ((FiscalService.calculate_period_ending_balances db period).map
      Prod.fst).Nodup := by
  unfold FiscalService.calculate_period_ending_balances
  exact nodup_keys_foldl _ [] List.nodup_nil

theorem lookupOr0_period_balances (db : Ledger) (period : FiscalPeriod)
    (a : Nat) :
    lookupOr0 (FiscalService.calculate_period_ending_balances db period) a =
      (((postedOnOrBefore db period.end_date).flatMap (fun e => e.lines)).map
        (fun l => if l.account_id = a then
          l.debit_amount - l.credit_amount else 0)).sum := by
  unfold FiscalService.calculate_period_ending_balances
  dsimp only
  rw [lookupOr0_foldl]
  simp [lookupOr0, List.find?]

theorem pickLatest_mem_aux {α : Type} (key : α → Nat) (l : List α)
    (acc : Option α) (x : α)
    (h : l.foldl (fun acc x =>
        match acc with
        | none => some x
        | some y => if key y < key x then some x else acc) acc = some x) :
    acc = some x ∨ x ∈ l := by
  induction l generalizing acc with
  | nil => exact Or.inl h
  | cons e rest ih =>
    rw [List.foldl_cons] at h
    rcases ih _ h with hacc | hmem
    · cases acc with
      | none =>
        cases hacc
        exact Or.inr (List.mem_cons_self _ _)
      | some y =>
        dsimp only at hacc
        split_ifs at hacc
        · cases hacc
          exact Or.inr (List.mem_cons_self _ _)
        · exact Or.inl hacc
    · exact Or.inr (List.mem_cons.mpr (Or.inr hmem))

theorem pickLatest_mem {α : Type} (key : α → Nat) (l : List α) (x : α)
    (h : pickLatest key l = some x) : x ∈ l := by
  unfold pickLatest at h
  rcases pickLatest_mem_aux key l none x h with hacc | hmem
  · cases hacc
  · exact hmem

theorem find?_mark_closed (l : List FiscalPeriod) (pid now : Nat) :
    (FiscalService.mark_closed l pid now).find? (fun p => p.id == pid) =
      (l.find? (fun p => p.id == pid)).map
        (fun p => { p with is_closed := true, closed_at := some now }) := by
  induction l with
  | nil => rfl
  | cons p rest ih =>
    by_cases hp : p.id = pid
    · simp [FiscalService.mark_closed, hp, List.find?_cons]
    · simp [FiscalService.mark_closed, hp, List.find?_cons, ih]

theorem store_loop_aux (db : Ledger) (period : FiscalPeriod)
    (bs : List (Nat × Int)) (orig : List AccountBalance)
    (hprev : ∀ prev, FiscalService.get_previous_period db period = some prev →
      prev.id ≠ period.id)
    (h0 : ∀ b ∈ orig, b.fiscal_period_id ≠ period.id) :
    ∀ extra : List AccountBalance,
    (bs.map Prod.fst).Nodup →
    (∀ b ∈ extra, b.fiscal_period_id = period.id ∧
      b.account_id ∉ bs.map Prod.fst) →
    bs.foldl (FiscalService.store_balance db period) (orig ++ extra) =
      orig ++ extra ++ bs.map (FiscalService.snapshot_row db period orig) := by
  induction bs with
  | nil => intro extra _ _; simp
  | cons kv rest ih =>
    intro extra hk hextra
    rw [List.map_cons, List.nodup_cons] at hk
    rw [List.foldl_cons]
    have hstep : FiscalService.store_balance db period (orig ++ extra) kv =
        (orig ++ extra) ++ [FiscalService.snapshot_row db period orig kv] := by
      unfold FiscalService.store_balance
      have hfind1 : (orig ++ extra).find? (fun b =>
          b.account_id == kv.1 && b.fiscal_period_id == period.id) = none := by
        rw [List.find?_eq_none]
        intro b hb
        rcases List.mem_append.mp hb with hbo | hbe
        · simp [h0 b hbo]
        · have hna := (hextra b hbe).2
          have hne : b.account_id ≠ kv.1 := fun hh =>
            hna (hh ▸ List.mem_cons_self _ _)
          simp [hne]
      rw [hfind1]
      cases hpp : FiscalService.get_previous_period db period with
      | none =>
        dsimp only
        unfold FiscalService.snapshot_row FiscalService.opening_from
        rw [hpp]
      | some prev =>
        dsimp only
        have hx : extra.find? (fun b =>
            b.account_id == kv.1 && b.fiscal_period_id == prev.id) = none := by
          rw [List.find?_eq_none]
          intro b hb
          have h1 := (hextra b hb).1
          have h2 := hprev prev hpp
          simp [h1]
          intro _ hh
          exact h2 hh.symm
        have hfind2 : (orig ++ extra).find? (fun b =>
            b.account_id == kv.1 && b.fiscal_period_id == prev.id) =
            orig.find? (fun b =>
              b.account_id == kv.1 && b.fiscal_period_id == prev.id) := by
          rw [List.find?_append, hx]
          cases orig.find? (fun b =>
            b.account_id == kv.1 && b.fiscal_period_id == prev.id) <;> rfl
        unfold FiscalService.snapshot_row FiscalService.opening_from
        rw [hpp, hfind2]
    rw [hstep, List.append_assoc orig extra]
    have hrec := ih (extra ++ [FiscalService.snapshot_row db period orig kv])
      hk.2 ?_
    · rw [hrec, List.map_cons]
      simp
    · intro b hb
      rcases List.mem_append.mp hb with hbe | hbr
      · exact ⟨(hextra b hbe).1, fun hh =>
          (hextra b hbe).2 (List.mem_cons.mpr (Or.inr hh))⟩
      · rw [List.mem_singleton] at hbr
        subst hbr
        exact ⟨rfl, hk.1⟩

theorem store_loop (db : Ledger) (period : FiscalPeriod)
    (bs : List (Nat × Int)) (orig : List AccountBalance)
    (hk : (bs.map Prod.fst).Nodup)
    (h0 : ∀ b ∈ orig, b.fiscal_period_id ≠ period.id)
    (hprev : ∀ prev, FiscalService.get_previous_period db period = some prev →
      prev.id ≠ period.id) :
    bs.foldl (FiscalService.store_balance db period) orig =
      orig ++ bs.map (FiscalService.snapshot_row db period orig) := by
  have h := store_loop_aux db period bs orig hprev h0 [] hk (by simp)
  simpa using h

/-- C5 counterexample: the spec says closing a period snapshots an
`AccountBalance` row for every account, but `close_fiscal_period` writes
rows only for accounts that appear on the lines of POSTED entries dated on
or before the period end. In `stC5`, account 3 (Equipment) exists but has
no activity, and the close succeeds writing rows only for accounts 1 and
2. -/
theorem claim_C5_counterexample :
    (∃ a ∈ stC5.accounts, a.id = 3) ∧
    (FiscalService.close_fiscal_period stC5 1 77).toOption.map
      (fun db2 => db2.account_balances.map (fun b => b.account_id)) =
      some [1, 2] := by decide

/-- C5 (amended): `close_fiscal_period` fails when the period is already
closed; fails when any DRAFT entry is dated within [start, end]; otherwise
(on a session with no prior balance rows for the period) it appends one
`AccountBalance` row per account APPEARING IN THE PERIOD ENDING BALANCES
(accounts with no posted activity get no row), where each account ending
balance is the sum of (debit - credit) over all POSTED entries dated on or
before the period end, each row opening balance is the predecessor period
closing balance (0 if none), and the period is marked closed. -/
theorem claim_C5_close_period_amended (db : Ledger) (pid now : Nat)
    (period : FiscalPeriod)
    (hfind : db.periods.find? (fun p => p.id == pid) = some period)
    (hids : (db.periods.map (fun p => p.id)).Nodup)
    (hse : period.start_date.le period.end_date = true)
    (h0 : ∀ b ∈ db.account_balances, b.fiscal_period_id ≠ period.id) :
    (period.is_closed = true →
      FiscalService.close_fiscal_period db pid now =
        Except.error (ApiError.badRequest "Fiscal period is already closed")) ∧
    (period.is_closed = false →
      (∃ e ∈ db.entries, e.status = JournalEntryStatus.DRAFT ∧
        period.start_date.le e.entry_date = true ∧
        e.entry_date.le period.end_date = true) →
      FiscalService.close_fiscal_period db pid now =
        Except.error
          (ApiError.badRequest
            "Cannot close period with unposted journal entries")) ∧
    (period.is_closed = false →
      (∀ e ∈ db.entries, e.status = JournalEntryStatus.DRAFT →
        ¬(period.start_date.le e.entry_date = true ∧
          e.entry_date.le period.end_date = true)) →
      FiscalService.close_fiscal_period db pid now = Except.ok
        { accounts := db.accounts, entries := db.entries,
          periods := FiscalService.mark_closed db.periods pid now,
          account_balances := db.account_balances ++
            (FiscalService.calculate_period_ending_balances db period).map
              (FiscalService.snapshot_row db period db.account_balances) } ∧
      (∀ a : Nat,
        lookupOr0 (FiscalService.calculate_period_ending_balances db period) a =
          (((postedOnOrBefore db period.end_date).flatMap
            (fun e => e.lines)).map
            (fun l => if l.account_id = a then
              l.debit_amount - l.credit_amount else 0)).sum) ∧
      (FiscalService.mark_closed db.periods pid now).find?
          (fun p => p.id == pid) =
        some { period with is_closed := true, closed_at := some now }) := by
  have hmem : period ∈ db.periods := List.mem_of_find?_eq_some hfind
  refine ⟨?_, ?_, ?_⟩
  · intro hcl
    unfold FiscalService.close_fiscal_period
    rw [hfind]
    dsimp only
    rw [if_pos hcl]
  · intro hcl hex
    unfold FiscalService.close_fiscal_period
    rw [hfind]
    dsimp only
    rw [if_neg (by simp [hcl])]
    obtain ⟨e, he, h1, h2, h3⟩ := hex
    have hememf : e ∈ db.entries.filter (fun e =>
        period.start_date.le e.entry_date && e.entry_date.le period.end_date &&
        e.status == JournalEntryStatus.DRAFT) :=
      List.mem_filter.mpr ⟨he, by simp [h1, h2, h3]⟩
    rw [if_pos (List.length_pos.mpr (List.ne_nil_of_mem hememf))]
  · intro hcl hnone
    unfold FiscalService.close_fiscal_period
    rw [hfind]
    dsimp only
    rw [if_neg (by simp [hcl])]
    have hnil : db.entries.filter (fun e =>
        period.start_date.le e.entry_date && e.entry_date.le period.end_date &&
        e.status == JournalEntryStatus.DRAFT) = [] := by
      rw [List.filter_eq_nil_iff]
      intro e he hp
      simp only [Bool.and_eq_true, beq_iff_eq] at hp
      obtain ⟨⟨hp1, hp2⟩, hp3⟩ := hp
      exact hnone e he hp3 ⟨hp1, hp2⟩
    rw [if_neg (by rw [hnil]; simp)]
    have hprev : ∀ prev,
        FiscalService.get_previous_period db period = some prev →
        prev.id ≠ period.id := by
      intro prev hpp hpe
      have hpmem0 := pickLatest_mem (fun p => p.end_date.key)
        (db.periods.filter (fun p => p.end_date.lt period.start_date)) prev
        (by unfold FiscalService.get_previous_period at hpp; exact hpp)
      have hpmem : prev ∈ db.periods := (List.mem_filter.mp hpmem0).1
      have hppred : prev.end_date.lt period.start_date = true :=
        (List.mem_filter.mp hpmem0).2
      have heq : prev = period :=
        List.inj_on_of_nodup_map hids hpmem hmem hpe
      rw [heq] at hppred
      unfold SDate.lt at hppred
      unfold SDate.le at hse
      have hn1 := of_decide_eq_true hppred
      have hn2 := of_decide_eq_true hse
      omega
    refine ⟨?_, lookupOr0_period_balances db period, ?_⟩
    · rw [store_loop db period
        (FiscalService.calculate_period_ending_balances db period)
        db.account_balances (nodup_keys_period_balances db period) h0 hprev]
    · rw [find?_mark_closed, hfind]
      rfl

/-- C5 witness: closing the open January period of `stC5` succeeds and
produces exactly the appended snapshot rows and the closed period. -/
theorem claim_C5_close_period_amended_witness :
    FiscalService.close_fiscal_period stC5 1 77 = Except.ok
      { accounts := stC5.accounts, entries := stC5.entries,
        periods := FiscalService.mark_closed stC5.periods 1 77,
        account_balances := stC5.account_balances ++
          (FiscalService.calculate_period_ending_balances stC5
            { id := 1, name := "2025-01", start_date := SDate.mk 2025 1 1,
              end_date := SDate.mk 2025 1 31, is_closed := false,
              closed_at := none }).map
            (FiscalService.snapshot_row stC5
              { id := 1, name := "2025-01", start_date := SDate.mk 2025 1 1,
                end_date := SDate.mk 2025 1 31, is_closed := false,
                closed_at := none } stC5.account_balances) } :=
  ((claim_C5_close_period_amended stC5 1 77
    { id := 1, name := "2025-01", start_date := SDate.mk 2025 1 1,
      end_date := SDate.mk 2025 1 31, is_closed := false, closed_at := none }
    rfl (by decide) (by decide) (by decide)).2.2 rfl (by decide)).1

end Finance
